import Mathlib

/-!
# Rainwater-harvesting assessment engine

A shallow embedding of the calculation functions of `script.js`
(`calculateWaterStorage`, `getRunoffCoefficient`, `getSoilRecommendations`,
`calculateCostEstimation`, `getSystemRecommendations`,
`calculateSystemEfficiency`, `calculateGroundwaterImpact`) and the properties
proved about them.

## Numbers

JavaScript numbers are IEEE-754 doubles.  A finite number is a rational, and
the storage calculation is given twice: `calculateWaterStorageF64` rounds every
operation to the nearest double (`toF64`, round to nearest, ties to even),
which is what decides a `Math.round` near a half; `calculateWaterStorage` and
the other functions compute with exact rationals (no rounding error, no
overflow, no signed zero, a zero divisor counts as `+0`).  The three non-finite
values that a division by zero produces are kept: `JSNum` adds `Infinity`,
`-Infinity` and `NaN` to the rationals.  Function arguments (`roofArea`,
`openSpace`, `currentYear`, the fields of a storage estimate) are finite
numbers, so they are rationals; a value computed through a division whose
divisor can be zero is a `JSNum`.

## Object lookups

An object literal used as a table (`coefficients[soilType]`) is a list of
key/value pairs.  A lookup finds an own key first and then the members that
every object inherits from `Object.prototype` (`constructor`, `toString`, ...):
`memberOr` returns a `Member`, either a value of the table or such an inherited
member.  The soil and groundwater lookups are modelled this way.  The storage
calculation reads the runoff coefficient as the number `getRunoffCoefficient`,
which is the looked-up value for every soil type that is not an inherited
property name.
-/

namespace RWH

/-! ## JavaScript numbers -/

/-- A JavaScript number: a finite value, `Infinity`, `-Infinity` or `NaN`. -/
inductive JSNum where
  | fin (q : ℚ)
  | posInf
  | negInf
  | nan
  deriving DecidableEq

namespace JSNum

/-- The test `Number.isFinite`. -/
def isFinite : JSNum → Bool
  | fin _ => true
  | _ => false

/-- The test `Number.isNaN`. -/
def isNaN : JSNum → Bool
  | nan => true
  | _ => false

/-- The infinity with the sign of `s` for non-zero `s`, and `NaN` for `s = 0`:
the value of `s / 0`, and of `s * Infinity`. -/
def signedInf (s : ℚ) : JSNum :=
  if 0 < s then posInf else if s < 0 then negInf else nan

/-- The operator `*`. -/
def mul : JSNum → JSNum → JSNum
  | fin a, fin b => fin (a * b)
  | nan, _ => nan
  | _, nan => nan
  | fin a, posInf => signedInf a
  | fin a, negInf => signedInf (-a)
  | posInf, fin b => signedInf b
  | negInf, fin b => signedInf (-b)
  | posInf, posInf => posInf
  | posInf, negInf => negInf
  | negInf, posInf => negInf
  | negInf, negInf => posInf

/-- The operator `/`.  A finite zero divisor is `+0`: `x / 0` is `Infinity`
for `x > 0`, `-Infinity` for `x < 0` and `NaN` for `x = 0`. -/
def div : JSNum → JSNum → JSNum
  | fin a, fin b => if b = 0 then signedInf a else fin (a / b)
  | nan, _ => nan
  | _, nan => nan
  | fin _, posInf => fin 0
  | fin _, negInf => fin 0
  | posInf, fin b => if 0 ≤ b then posInf else negInf
  | negInf, fin b => if 0 ≤ b then negInf else posInf
  | posInf, posInf => nan
  | posInf, negInf => nan
  | negInf, posInf => nan
  | negInf, negInf => nan

/-- The function `Math.min` of two arguments: `NaN` if either is `NaN`. -/
def min : JSNum → JSNum → JSNum
  | nan, _ => nan
  | _, nan => nan
  | negInf, _ => negInf
  | _, negInf => negInf
  | posInf, y => y
  | x, posInf => x
  | fin a, fin b => fin (Min.min a b)

end JSNum

/-- The function `Math.round` on a finite number: the nearest integer, a half
rounded up (towards `+Infinity`). -/
def mathRound (x : ℚ) : ℤ := ⌊x + 1 / 2⌋

/-- The function `Math.round` on any number: the infinities and `NaN` are
returned unchanged. -/
def JSNum.round : JSNum → JSNum
  | JSNum.fin q => JSNum.fin (mathRound q)
  | x => x

/-- The parts of the platform's `Math` object that are irrational-valued:
the constant `Math.PI` and the function `Math.sqrt` on non-negative finite
numbers. -/
structure JSMath where
  PI : ℚ
  sqrt : ℚ → ℚ

/-- The function `Math.sqrt`: `NaN` on a negative number. -/
def JSMath.sqrtNum (M : JSMath) : JSNum → JSNum
  | JSNum.fin q => if q < 0 then JSNum.nan else JSNum.fin (M.sqrt q)
  | JSNum.posInf => JSNum.posInf
  | _ => JSNum.nan

/-- The function `parseInt` in radix 10: leading white space, an optional
sign, then the longest run of decimal digits; `NaN` when there is no digit. -/
def parseInt (s : String) : JSNum :=
  let cs := s.toList.dropWhile Char.isWhitespace
  let signed : Bool × List Char :=
    match cs with
    | '-' :: t => (true, t)
    | '+' :: t => (false, t)
    | _ => (false, cs)
  let ds := signed.2.takeWhile Char.isDigit
  let n : ℕ := ds.foldl (fun acc c => 10 * acc + (c.toNat - 48)) 0
  if ds.isEmpty then JSNum.nan
  else if signed.1 then JSNum.fin (-(n : ℚ)) else JSNum.fin (n : ℚ)

/-- The expression `table[key] || dflt` for a table of numbers: the entry of
`key` when there is one and it is not zero, else `dflt`. -/
def lookupOr (table : List (String × ℚ)) (key : String) (dflt : ℚ) : ℚ :=
  match table.lookup key with
  | some v => if v = 0 then dflt else v
  | none => dflt

/-! ## Object lookups -/

/-- The property names that every object literal inherits from
`Object.prototype`. -/
def objectPrototypeKeys : List String :=
  [ "constructor", "__proto__", "hasOwnProperty", "isPrototypeOf", "propertyIsEnumerable",
    "toLocaleString", "toString", "valueOf", "__defineGetter__", "__defineSetter__",
    "__lookupGetter__", "__lookupSetter__" ]

/-- The value of an expression `table[key] || dflt`: either a value of the
table's kind (an own entry or the default), or the member that the table
inherits from `Object.prototype` under the name `key` (a function, or the
prototype object itself for `__proto__`), which is truthy and is neither a
number nor a string. -/
inductive Member (α : Type) where
  | value (a : α)
  | inherited (key : String)
  deriving DecidableEq

/-- The expression `table[key] || dflt` for an object literal `table`.  An own
entry of `key` is found first and is replaced by `dflt` when it is falsy;
without an own entry the lookup goes to `Object.prototype`, whose members are
truthy; only a key found in neither gives `undefined` and so `dflt`. -/
def memberOr {α : Type} (falsy : α → Bool) (table : List (String × α)) (key : String)
    (dflt : α) : Member α :=
  match table.lookup key with
  | some v => if falsy v then Member.value dflt else Member.value v
  | none => if key ∈ objectPrototypeKeys then Member.inherited key else Member.value dflt

/-- The falsy numbers of a table of finite numbers: zero. -/
def falsyNumber (q : ℚ) : Bool := decide (q = 0)

/-- The falsy strings: the empty string. -/
def falsyString (s : String) : Bool := decide (s = "")

/-- The number that arithmetic makes of a looked-up value (`ToNumber`): an
inherited function or object becomes `NaN`. -/
def Member.toNumber : Member ℚ → JSNum
  | Member.value q => JSNum.fin q
  | Member.inherited _ => JSNum.nan

/-! ## Data -/

/-- The assessment form data read by the calculation functions. -/
structure SiteData where
  roofArea : ℚ
  openSpace : ℚ
  soilType : String

/-- The rainfall record of `getRainfallData`. -/
structure RainfallData where
  currentYear : ℚ
  previousYear : ℚ
  averageRainfall : ℚ
  rainyDays : ℚ

/-- The object returned by `calculateWaterStorage`. -/
structure StorageCalc where
  roofHarvest : ℚ
  openSpaceHarvest : ℚ
  totalHarvestable : ℚ
  recommendedStorage : ℚ
  daysCovered : ℚ
  waterSavingPotential : ℚ
  roofRunoffCoeff : ℚ
  openSpaceRunoffCoeff : ℚ

/-! ## Water storage -/

/-- The table `coefficients` of `getRunoffCoefficient`. -/
def coefficients : List (String × ℚ) :=
  [("clay", 0.65), ("sandy", 0.35), ("loamy", 0.45), ("rocky", 0.75), ("mixed", 0.50)]

/-- The function `getRunoffCoefficient`: `coefficients[soilType] || 0.45`. -/
def getRunoffCoefficient (soilType : String) : ℚ :=
  lookupOr coefficients soilType 0.45

/-- The value that the function `getRunoffCoefficient` returns,
`coefficients[soilType] || 0.45`, for any string: a number, or the inherited
member when `soilType` names one.  The calculations read it as the number
`getRunoffCoefficient soilType`, which is this value for every soil type that is
not an inherited property name. -/
def getRunoffCoefficientMember (soilType : String) : Member ℚ :=
  memberOr falsyNumber coefficients soilType 0.45

/-- The function `calculateWaterStorage`. -/
def calculateWaterStorage (data : SiteData) (rainfallData : RainfallData) : StorageCalc :=
  let roofAreaM2 := data.roofArea
  let openSpaceM2 := data.openSpace
  let annualRainfallMm := rainfallData.currentYear
  let roofRunoffCoeff : ℚ := 0.85
  let openSpaceRunoffCoeff := getRunoffCoefficient data.soilType
  let roofWaterHarvest := roofAreaM2 * annualRainfallMm * roofRunoffCoeff
  let openSpaceWaterHarvest := openSpaceM2 * annualRainfallMm * openSpaceRunoffCoeff
  let totalHarvestableWater := roofWaterHarvest + openSpaceWaterHarvest
  let recommendedStorageCapacity := min (totalHarvestableWater * 0.6) 50000
  let dailyConsumption : ℚ := 150
  let householdSize : ℚ := 4
  let daysCovered := recommendedStorageCapacity / (dailyConsumption * householdSize)
  { roofHarvest := mathRound roofWaterHarvest
    openSpaceHarvest := mathRound openSpaceWaterHarvest
    totalHarvestable := mathRound totalHarvestableWater
    recommendedStorage := mathRound recommendedStorageCapacity
    daysCovered := mathRound daysCovered
    waterSavingPotential := mathRound (totalHarvestableWater * 0.7)
    roofRunoffCoeff := roofRunoffCoeff
    openSpaceRunoffCoeff := openSpaceRunoffCoeff }

/-! ## Soil recommendations -/

/-- An entry of the table `recommendations` of `getSoilRecommendations`. -/
structure SoilRec where
  suitability : String
  infiltrationRate : String
  recommendations : List String
  pitType : String
  depth : String
  liningRequired : Bool
  deriving DecidableEq

/-- The object returned by `getSoilRecommendations`: the fields spread from the
looked-up table entry and the computed pit geometry.  A spread field is `none`
(`undefined`) when the looked-up value is an inherited member, which has no
properties of its own to spread. -/
structure SoilRecommendation where
  suitability : Option String
  infiltrationRate : Option String
  recommendations : Option (List String)
  pitType : Option String
  depth : Option String
  liningRequired : Option Bool
  requiredPitDiameter : JSNum
  requiredPitVolume : ℤ
  excavationVolume : ℤ
  soilType : String

/-- The entry `recommendations['mixed']`. -/
def mixedSoilRec : SoilRec :=
  { suitability := "Good"
    infiltrationRate := "Variable (0.5-3.0 cm/hr)"
    recommendations :=
      [ "Conduct soil percolation test",
        "Hybrid system with storage and recharge",
        "Install multi-level filtration",
        "Adapt design based on dominant soil type" ]
    pitType := "Flexible design based on soil composition"
    depth := "3-4 meters"
    liningRequired := false }

/-- The table `recommendations` of `getSoilRecommendations`. -/
def soilRecommendationTable : List (String × SoilRec) :=
  [ ("clay",
      { suitability := "Good"
        infiltrationRate := "Low (0.1-0.3 cm/hr)"
        recommendations :=
          [ "Excellent for surface storage systems",
            "Install percolation wells with sand/gravel filter",
            "Consider lined storage tanks",
            "Add organic matter to improve permeability" ]
        pitType := "Lined storage pit with filtration system"
        depth := "3-4 meters"
        liningRequired := true }),
    ("sandy",
      { suitability := "Fair"
        infiltrationRate := "High (2.5-12.5 cm/hr)"
        recommendations :=
          [ "Focus on groundwater recharge",
            "Install recharge wells or bore wells",
            "Use rapid infiltration basins",
            "Minimal surface storage needed" ]
        pitType := "Unlined recharge pit with gravel bed"
        depth := "4-6 meters"
        liningRequired := false }),
    ("loamy",
      { suitability := "Excellent"
        infiltrationRate := "Moderate (0.8-2.0 cm/hr)"
        recommendations :=
          [ "Ideal for both storage and recharge",
            "Balanced approach with storage tanks",
            "Install percolation pits",
            "Best overall soil type for RWH" ]
        pitType := "Partially lined pit with overflow system"
        depth := "3-5 meters"
        liningRequired := false }),
    ("rocky",
      { suitability := "Challenging"
        infiltrationRate := "Very Low (0.05-0.2 cm/hr)"
        recommendations :=
          [ "Focus on surface collection and storage",
            "Use above-ground tanks",
            "Install check dams for surface runoff",
            "Consider blasting for pit construction" ]
        pitType := "Above-ground storage with collection system"
        depth := "2-3 meters (if excavation possible)"
        liningRequired := true }),
    ("mixed", mixedSoilRec) ]

/-- A property `v.f` of a looked-up value `v`: `undefined` (`none`) when `v` is
an inherited member. -/
def Member.field {α β : Type} (f : α → β) : Member α → Option β
  | Member.value a => some (f a)
  | Member.inherited _ => none

/-- The call `parseInt(x)` on a property that may be `undefined`: the argument
is first turned into text, and `undefined` becomes the text `undefined`. -/
def parseIntOf : Option String → JSNum
  | some s => parseInt s
  | none => parseInt "undefined"

/-- The function `getSoilRecommendations`. -/
def getSoilRecommendations (M : JSMath) (soilType : String) (storageCalc : StorageCalc) :
    SoilRecommendation :=
  let soilRec := memberOr (fun _ => false) soilRecommendationTable soilType mixedSoilRec
  let storageVolume := storageCalc.recommendedStorage
  let pitVolume := storageVolume * 1.2
  let pitDiameter :=
    JSNum.mul
      (M.sqrtNum
        (JSNum.div (JSNum.fin pitVolume)
          (JSNum.mul (JSNum.mul (JSNum.fin M.PI) (parseIntOf (soilRec.field SoilRec.depth)))
            (JSNum.fin 1000))))
      (JSNum.fin 2)
  { suitability := soilRec.field SoilRec.suitability
    infiltrationRate := soilRec.field SoilRec.infiltrationRate
    recommendations := soilRec.field SoilRec.recommendations
    pitType := soilRec.field SoilRec.pitType
    depth := soilRec.field SoilRec.depth
    liningRequired := soilRec.field SoilRec.liningRequired
    requiredPitDiameter :=
      JSNum.div (JSNum.round (JSNum.mul pitDiameter (JSNum.fin 10))) (JSNum.fin 10)
    requiredPitVolume := mathRound pitVolume
    excavationVolume := mathRound (pitVolume * 1.5)
    soilType := soilType }

/-! ## Cost estimation -/

/-- The object `costs` of `calculateCostEstimation`, its nine categories in
the order they are written. -/
structure CostBreakdown where
  excavation : ℚ
  lining : ℚ
  filtration : ℚ
  piping : ℚ
  pumping : ℚ
  firstFlush : ℚ
  storage : ℚ
  labor : ℚ
  miscellaneous : ℚ

/-- The call `Object.values(costs)`: the nine amounts in insertion order. -/
def CostBreakdown.values (c : CostBreakdown) : List ℚ :=
  [c.excavation, c.lining, c.filtration, c.piping, c.pumping, c.firstFlush, c.storage,
    c.labor, c.miscellaneous]

/-- The object `maintenanceCost` of `calculateCostEstimation`. -/
structure MaintenanceCost where
  cleaning : ℚ
  filterReplacement : ℚ
  pumpMaintenance : ℚ
  inspection : ℚ

/-- The call `Object.values(maintenanceCost)`. -/
def MaintenanceCost.values (m : MaintenanceCost) : List ℚ :=
  [m.cleaning, m.filterReplacement, m.pumpMaintenance, m.inspection]

/-- The call `xs.reduce((sum, cost) => sum + cost, 0)`. -/
def reduceSum (xs : List ℚ) : ℚ :=
  xs.foldl (fun sum cost => sum + cost) 0

/-- The object returned by `calculateCostEstimation`. -/
structure CostEstimation where
  breakdown : CostBreakdown
  totalInstallation : ℤ
  annualMaintenance : ℤ
  annualSavings : ℤ
  paybackPeriod : JSNum
  costPerLiterCapacity : JSNum
  governmentSubsidy : ℤ
  netCost : ℤ

/-- The object `costs` built by `calculateCostEstimation`. -/
def costBreakdown (data : SiteData) (storageCalc : StorageCalc) : CostBreakdown :=
  let storageCapacity := storageCalc.recommendedStorage
  let roofArea := data.roofArea
  let soilType := data.soilType
  { excavation := (storageCapacity / 1000) * 500
    lining := if soilType = "clay" ∨ soilType = "rocky" then (storageCapacity / 1000) * 800 else 0
    filtration := 15000
    piping := roofArea * 150
    pumping := if storageCapacity > 10000 then 25000 else 0
    firstFlush := 5000
    storage := storageCapacity * 8
    labor := (storageCapacity / 1000) * 2000
    miscellaneous := 10000 }

/-- The function `calculateCostEstimation`. -/
def calculateCostEstimation (data : SiteData) (storageCalc : StorageCalc) : CostEstimation :=
  let storageCapacity := storageCalc.recommendedStorage
  let costs := costBreakdown data storageCalc
  let totalCost := reduceSum costs.values
  let maintenanceCost : MaintenanceCost :=
    { cleaning := 3000
      filterReplacement := 2000
      pumpMaintenance := if costs.pumping > 0 then 1500 else 0
      inspection := 1000 }
  let annualMaintenance := reduceSum maintenanceCost.values
  let waterSavedPerYear := storageCalc.waterSavingPotential
  let waterCostPerLiter : ℚ := 0.05
  let annualSavings := waterSavedPerYear * waterCostPerLiter
  let paybackPeriod :=
    JSNum.div (JSNum.fin totalCost) (JSNum.fin (annualSavings - annualMaintenance))
  { breakdown := costs
    totalInstallation := mathRound totalCost
    annualMaintenance := mathRound annualMaintenance
    annualSavings := mathRound annualSavings
    paybackPeriod :=
      JSNum.div (JSNum.round (JSNum.mul paybackPeriod (JSNum.fin 10))) (JSNum.fin 10)
    costPerLiterCapacity :=
      JSNum.div
        (JSNum.round
          (JSNum.mul (JSNum.div (JSNum.fin totalCost) (JSNum.fin storageCapacity))
            (JSNum.fin 100)))
        (JSNum.fin 100)
    governmentSubsidy := mathRound (totalCost * 0.3)
    netCost := mathRound (totalCost * 0.7) }

/-! ## System recommendations -/

/-- The function `calculateSystemEfficiency`. -/
def calculateSystemEfficiency (_data : SiteData) (storageCalc : StorageCalc) : JSNum :=
  let collectionEfficiency := (storageCalc.roofRunoffCoeff + storageCalc.openSpaceRunoffCoeff) / 2
  let storageEfficiency :=
    JSNum.min
      (JSNum.div (JSNum.fin storageCalc.recommendedStorage)
        (JSNum.fin storageCalc.totalHarvestable))
      (JSNum.fin 0.8)
  let overallEfficiency :=
    JSNum.mul (JSNum.mul (JSNum.fin collectionEfficiency) storageEfficiency) (JSNum.fin 0.85)
  JSNum.round (JSNum.mul overallEfficiency (JSNum.fin 100))

/-- The function `getMaintenanceSchedule`. -/
def getMaintenanceSchedule : List (String × List String) :=
  [ ("Weekly", ["Check for blockages in gutters", "Inspect first flush diverter"]),
    ("Monthly", ["Clean roof and gutters", "Check water quality", "Test pump operation"]),
    ("Quarterly", ["Replace filters", "Check storage tank condition", "Inspect piping"]),
    ("Annually", ["Professional system inspection", "Deep cleaning", "Repair and replacement"]) ]

/-- The object returned by `getSystemRecommendations`. -/
structure SystemRecommendation where
  systemType : String
  components : List String
  benefits : List String
  efficiency : JSNum
  maintenanceSchedule : List (String × List String)
  expectedLifespan : String

/-- The component list of the tier chosen when `totalWater < 50000`. -/
def basicComponents : List String :=
  [ "Roof gutters and downpipes",
    "First flush diverter",
    "Storage tank (5,000-10,000L)",
    "Basic filtration unit",
    "Overflow management" ]

/-- The component list of the tier chosen when `50000 ≤ totalWater < 150000`. -/
def intermediateComponents : List String :=
  [ "Complete catchment system",
    "Multi-stage filtration",
    "Underground storage tank (15,000-25,000L)",
    "Pump and distribution system",
    "Groundwater recharge pit" ]

/-- The component list of the last tier. -/
def advancedComponents : List String :=
  [ "Comprehensive collection network",
    "Automated first flush system",
    "Multiple storage units (50,000L+)",
    "Water treatment plant",
    "Smart monitoring system",
    "Groundwater recharge wells" ]

/-- The comparison `a < b` of two JavaScript numbers: false when either is
`NaN`. -/
def JSNum.lt : JSNum → JSNum → Bool
  | JSNum.nan, _ => false
  | _, JSNum.nan => false
  | JSNum.fin a, JSNum.fin b => decide (a < b)
  | JSNum.negInf, JSNum.negInf => false
  | JSNum.negInf, _ => true
  | _, JSNum.negInf => false
  | JSNum.posInf, _ => false
  | JSNum.fin _, JSNum.posInf => true

/-- The comparison `a <= b` of two JavaScript numbers: false when either is
`NaN`. -/
def JSNum.le : JSNum → JSNum → Bool
  | JSNum.nan, _ => false
  | _, JSNum.nan => false
  | JSNum.fin a, JSNum.fin b => decide (a ≤ b)
  | JSNum.negInf, _ => true
  | _, JSNum.posInf => true
  | JSNum.posInf, _ => false
  | JSNum.fin _, JSNum.negInf => false

/-- The tier selection of `getSystemRecommendations`: the `if`, `else if`,
`else` on `totalWater`, for any JavaScript number.  It gives `systemType` and
`components`. -/
def systemTier (totalWater : JSNum) : String × List String :=
  if JSNum.lt totalWater (JSNum.fin 50000) then ("Basic Rooftop Harvesting", basicComponents)
  else if JSNum.lt totalWater (JSNum.fin 150000) then
    ("Intermediate RWH System", intermediateComponents)
  else ("Advanced RWH System", advancedComponents)

/-- The text of an integer in a template literal. -/
def showInt (n : ℤ) : String := toString n

/-- The function `getSystemRecommendations`. -/
def getSystemRecommendations (data : SiteData) (storageCalc : StorageCalc) :
    SystemRecommendation :=
  let totalWater := storageCalc.totalHarvestable
  let tier : String × List String := systemTier (JSNum.fin totalWater)
  let benefits : List String :=
    [ "Save " ++ showInt (mathRound (storageCalc.waterSavingPotential / 1000))
        ++ " kiloliters annually",
      "Reduce water bill by ₹" ++ showInt (mathRound (storageCalc.waterSavingPotential * 0.05))
        ++ " per year",
      "Groundwater recharge of " ++ showInt (mathRound (totalWater * 0.3 / 1000))
        ++ " kiloliters",
      "Flood reduction in local area",
      "Emergency water supply for " ++ showInt (mathRound storageCalc.daysCovered) ++ " days" ]
  { systemType := tier.1
    components := tier.2
    benefits := benefits
    efficiency := calculateSystemEfficiency data storageCalc
    maintenanceSchedule := getMaintenanceSchedule
    expectedLifespan := "15-25 years with proper maintenance" }

/-! ## Groundwater impact -/

/-- The table `types` of `getAquiferType`. -/
def aquiferTypes : List (String × String) :=
  [ ("clay", "Confined aquifer"),
    ("sandy", "Unconfined aquifer"),
    ("loamy", "Semi-confined aquifer"),
    ("rocky", "Fractured rock aquifer"),
    ("mixed", "Complex aquifer system") ]

/-- The function `getAquiferType`: `types[soilType] || 'Mixed aquifer system'`. -/
def getAquiferType (soilType : String) : Member String :=
  memberOr falsyString aquiferTypes soilType "Mixed aquifer system"

/-- The table `yields` of `getSpecificYield`. -/
def specificYields : List (String × ℚ) :=
  [("clay", 0.03), ("sandy", 0.25), ("loamy", 0.15), ("rocky", 0.05), ("mixed", 0.12)]

/-- The function `getSpecificYield`: `yields[soilType] || 0.12`. -/
def getSpecificYield (soilType : String) : Member ℚ :=
  memberOr falsyNumber specificYields soilType 0.12

/-- The table `impacts` of `getWaterQualityImpact`. -/
def waterQualityImpacts : List (String × String) :=
  [ ("clay", "Natural filtration, slower recharge"),
    ("sandy", "Rapid infiltration, minimal filtration"),
    ("loamy", "Good balance of infiltration and filtration"),
    ("rocky", "Variable quality depending on rock type"),
    ("mixed", "Varied quality improvement") ]

/-- The function `getWaterQualityImpact`:
`impacts[soilType] || 'Moderate quality improvement'`. -/
def getWaterQualityImpact (soilType : String) : Member String :=
  memberOr falsyString waterQualityImpacts soilType "Moderate quality improvement"

/-- The object returned by `calculateGroundwaterImpact`. -/
structure GroundwaterImpact where
  annualRecharge : ℤ
  estimatedLevelRise : JSNum
  aquiferType : Member String
  specificYield : Member ℚ
  rechargeRate : JSNum
  environmentalBenefits : List String
  impactRadius : JSNum
  qualityImprovement : Member String

/-- The function `calculateGroundwaterImpact`. -/
def calculateGroundwaterImpact (M : JSMath) (data : SiteData) (storageCalc : StorageCalc) :
    GroundwaterImpact :=
  let rechargeVolume := storageCalc.totalHarvestable * 0.4
  let rechargeArea := data.roofArea + data.openSpace
  let aquiferType := getAquiferType data.soilType
  let specificYield := getSpecificYield data.soilType
  let levelRise :=
    JSNum.div (JSNum.fin (rechargeVolume / 1000))
      (JSNum.mul (JSNum.fin rechargeArea) specificYield.toNumber)
  { annualRecharge := mathRound rechargeVolume
    estimatedLevelRise :=
      JSNum.div (JSNum.round (JSNum.mul levelRise (JSNum.fin 100))) (JSNum.fin 100)
    aquiferType := aquiferType
    specificYield := specificYield
    rechargeRate :=
      JSNum.round
        (JSNum.mul
          (JSNum.div (JSNum.fin rechargeVolume) (JSNum.fin storageCalc.totalHarvestable))
          (JSNum.fin 100))
    environmentalBenefits :=
      [ "Reduces urban flooding",
        "Improves local groundwater levels",
        "Reduces soil erosion",
        "Supports local vegetation",
        "Maintains natural water cycle" ]
    impactRadius :=
      JSNum.round
        (JSNum.mul
          (M.sqrtNum (JSNum.div (JSNum.fin rechargeArea) (JSNum.fin M.PI)))
          (JSNum.fin 2))
    qualityImprovement := getWaterQualityImpact data.soilType }

/-! ## Double-precision arithmetic -/

/-- The nearest integer to `y`, a tie going to the even neighbour. -/
def roundHalfEven (y : ℚ) : ℤ :=
  if y - ⌊y⌋ < 1 / 2 then ⌊y⌋
  else if 1 / 2 < y - ⌊y⌋ then ⌊y⌋ + 1
  else if ⌊y⌋ % 2 = 0 then ⌊y⌋ else ⌊y⌋ + 1

/-- The exponent `e` of the spacing `2 ^ e` of the doubles around `x`: 52 below
the binary exponent of `x`, and `-1074` throughout the subnormal range. -/
def ulpExponent (x : ℚ) : ℤ := max (Int.log 2 |x|) (-1022) - 52

/-- The double nearest to `x` (round to nearest, ties to even), which is the
result of a double-precision operation whose exact result is `x`.  Overflow to
`Infinity` is not modelled. -/
def toF64 (x : ℚ) : ℚ := roundHalfEven (x / 2 ^ ulpExponent x) * 2 ^ ulpExponent x

/-- The function `calculateWaterStorage` in double-precision arithmetic: the
numeric literals are the nearest doubles and every product, sum and quotient is
rounded to the nearest double, in the order the code evaluates them; `Math.min`
and `Math.round` are exact on doubles.  The arguments are doubles. -/
def calculateWaterStorageF64 (data : SiteData) (rainfallData : RainfallData) : StorageCalc :=
  let roofAreaM2 := data.roofArea
  let openSpaceM2 := data.openSpace
  let annualRainfallMm := rainfallData.currentYear
  let roofRunoffCoeff : ℚ := toF64 0.85
  let openSpaceRunoffCoeff := toF64 (getRunoffCoefficient data.soilType)
  let roofWaterHarvest := toF64 (toF64 (roofAreaM2 * annualRainfallMm) * roofRunoffCoeff)
  let openSpaceWaterHarvest :=
    toF64 (toF64 (openSpaceM2 * annualRainfallMm) * openSpaceRunoffCoeff)
  let totalHarvestableWater := toF64 (roofWaterHarvest + openSpaceWaterHarvest)
  let recommendedStorageCapacity := min (toF64 (totalHarvestableWater * toF64 0.6)) 50000
  let dailyConsumption : ℚ := 150
  let householdSize : ℚ := 4
  let daysCovered :=
    toF64 (recommendedStorageCapacity / toF64 (dailyConsumption * householdSize))
  { roofHarvest := mathRound roofWaterHarvest
    openSpaceHarvest := mathRound openSpaceWaterHarvest
    totalHarvestable := mathRound totalHarvestableWater
    recommendedStorage := mathRound recommendedStorageCapacity
    daysCovered := mathRound daysCovered
    waterSavingPotential := mathRound (toF64 (totalHarvestableWater * toF64 0.7))
    roofRunoffCoeff := roofRunoffCoeff
    openSpaceRunoffCoeff := openSpaceRunoffCoeff }

/-- A site whose exact saving potential `0.7 * 10875` falls on a half: a 2 m²
roof and 20 m² of open space on sandy soil. -/
def tieSite : SiteData := ⟨2, 20, "sandy"⟩

/-! ## Specification vocabulary and sample inputs -/

/-- The nearest integer to `x`, a half rounded up: `y` is an integer with
`y - 1/2 ≤ x < y + 1/2`. -/
def IsNearestHalfUp (x y : ℚ) : Prop :=
  y = ((⌊y⌋ : ℤ) : ℚ) ∧ y - 1 / 2 ≤ x ∧ x < y + 1 / 2

instance instDecidableIsNearestHalfUp (x y : ℚ) : Decidable (IsNearestHalfUp x y) := by
  unfold IsNearestHalfUp; infer_instance

/-- The integer `f` is `Math.round` of a value within `δ` of `v`, as seen from
`v`: `f` is an integer at most `1/2 + δ` from `v`, and it is the nearest integer
to `v` (a half rounded up) whenever `v` is more than `δ` away from every
half-integer `n + 1/2`. -/
def RoundsWithin (δ v f : ℚ) : Prop :=
  f = ((⌊f⌋ : ℤ) : ℚ) ∧ |f - v| ≤ 1 / 2 + δ ∧
    ((∀ n : ℤ, δ < |v - (n + 1 / 2)|) → IsNearestHalfUp v f)

/-- Scenario A: a 100 m² roof and 50 m² of open space on loamy soil. -/
def scenarioASite : SiteData := ⟨100, 50, "loamy"⟩

/-- The rainfall record that `getRainfallData` returns (1250 mm in the current year). -/
def mockRainfallData : RainfallData := ⟨1250, 1180, 1200, 65⟩

/-- A rainfall record of a year without rain. -/
def dryYear : RainfallData := ⟨0, 1180, 1200, 65⟩

/-- A rainfall record of a year with 1 mm of rain. -/
def oneMillimetreYear : RainfallData := ⟨1, 1180, 1200, 65⟩

/-- Scenario C: a 10 m² roof without open space on rocky soil. -/
def scenarioCSite : SiteData := ⟨10, 0, "rocky"⟩

/-- The rainfall record of scenario C (500 mm in the current year). -/
def scenarioCRain : RainfallData := ⟨500, 1180, 1200, 65⟩

/-- A 60 m² roof without open space on loamy soil. -/
def sixtySquareMetreRoof : SiteData := ⟨60, 0, "loamy"⟩

/-- A 100.25 m² roof and 50 m² of open space on loamy soil. -/
def quarterMetreSite : SiteData := ⟨100.25, 50, "loamy"⟩

/-- The sum of the nine amounts of a cost breakdown. -/
def CostBreakdown.sum (b : CostBreakdown) : ℚ :=
  b.excavation + b.lining + b.filtration + b.piping + b.pumping + b.firstFlush + b.storage
    + b.labor + b.miscellaneous

/-- A stand-in for the platform's `Math` object: the double nearest to π and
square roots truncated to six decimals. -/
def sampleMath : JSMath :=
  { PI := 884279719003555 / 281474976710656
    sqrt := fun q => (Nat.sqrt (⌊q * 10 ^ 12⌋).toNat : ℚ) / 10 ^ 6 }

/-- Scenario B: the site of scenario A on sandy soil. -/
def scenarioBSite : SiteData := ⟨100, 50, "sandy"⟩

/-- A site whose soil type is none of the five table keys. -/
def gravelSite : SiteData := ⟨100, 50, "gravel"⟩

/-- The site of scenario A on mixed soil. -/
def mixedSite : SiteData := ⟨100, 50, "mixed"⟩

/-- A storage estimate whose recommended storage is exactly 10000 litres
(a harvest of 16667 litres). -/
def tenThousandLitres : StorageCalc :=
  { roofHarvest := 16667
    openSpaceHarvest := 0
    totalHarvestable := 16667
    recommendedStorage := 10000
    daysCovered := 17
    waterSavingPotential := 11667
    roofRunoffCoeff := 0.85
    openSpaceRunoffCoeff := 0.45 }

/-! ## Rounding -/

theorem mathRound_le (x : ℚ) : ((mathRound x : ℤ) : ℚ) ≤ x + 1 / 2 := by
  unfold mathRound; exact Int.floor_le _

theorem lt_mathRound (x : ℚ) : x - 1 / 2 < ((mathRound x : ℤ) : ℚ) := by
  have h := Int.lt_floor_add_one (x + 1 / 2)
  unfold mathRound; linarith

theorem mathRound_intCast (k : ℤ) : mathRound (k : ℚ) = k := by
  unfold mathRound
  rw [Int.floor_eq_iff]
  constructor <;> norm_num

theorem mathRound_mono {x y : ℚ} (h : x ≤ y) : mathRound x ≤ mathRound y := by
  unfold mathRound
  exact Int.floor_mono (by linarith)

theorem mathRound_nonneg {x : ℚ} (h : 0 ≤ x) : 0 ≤ mathRound x := by
  have := mathRound_mono h
  rwa [show ((0 : ℚ)) = ((0 : ℤ) : ℚ) by norm_num, mathRound_intCast] at this

theorem mathRound_isNearest (x : ℚ) : IsNearestHalfUp x (mathRound x) := by
  refine ⟨by simp, ?_, ?_⟩
  · have := mathRound_le x; linarith
  · have := lt_mathRound x; linarith

theorem getRunoffCoefficient_loamy : getRunoffCoefficient "loamy" = 0.45 := by
  simp [getRunoffCoefficient, lookupOr, coefficients, List.lookup]

/-! ## Water storage -/

/-- In exact arithmetic (`calculateWaterStorage` on rationals, no rounding of the
intermediate products), for a site with non-negative areas and a non-negative
rainfall, every field is the nearest integer (a half rounded up) to the exact
quantity: the roof harvest, the open-space harvest,
their sum `T`, `min (0.6 T) 50000`, that minimum over 600, and `0.7 T`; the two
runoff coefficients are 0.85 and `getRunoffCoefficient soilType`. -/
theorem calculateWaterStorage_spec (data : SiteData) (rainfallData : RainfallData)
    (_hr : 0 ≤ data.roofArea) (_ho : 0 ≤ data.openSpace) (_hy : 0 ≤ rainfallData.currentYear) :
    let c := getRunoffCoefficient data.soilType
    let T := data.roofArea * rainfallData.currentYear * 0.85
      + data.openSpace * rainfallData.currentYear * c
    let s := calculateWaterStorage data rainfallData
    IsNearestHalfUp (data.roofArea * rainfallData.currentYear * 0.85) s.roofHarvest ∧
    IsNearestHalfUp (data.openSpace * rainfallData.currentYear * c) s.openSpaceHarvest ∧
    IsNearestHalfUp T s.totalHarvestable ∧
    IsNearestHalfUp (min (0.6 * T) 50000) s.recommendedStorage ∧
    IsNearestHalfUp (min (0.6 * T) 50000 / 600) s.daysCovered ∧
    IsNearestHalfUp (0.7 * T) s.waterSavingPotential ∧
    s.roofRunoffCoeff = 0.85 ∧ s.openSpaceRunoffCoeff = c := by
  intro c T s
  have e1 : T * 0.6 = 0.6 * T := mul_comm _ _
  have e2 : T * 0.7 = 0.7 * T := mul_comm _ _
  have e3 : (150 : ℚ) * 4 = 600 := by norm_num
  refine ⟨mathRound_isNearest _, mathRound_isNearest _, mathRound_isNearest _, ?_, ?_, ?_, rfl, rfl⟩
  · rw [← e1]
    exact mathRound_isNearest (min (T * 0.6) 50000)
  · rw [← e1, ← e3]
    exact mathRound_isNearest (min (T * 0.6) 50000 / (150 * 4))
  · rw [← e2]
    exact mathRound_isNearest (T * 0.7)

/-- Scenario A in exact arithmetic: the coefficients are 0.85 and 0.45,
and the six rounded fields are 106250, 28125, 134375, 50000, 83 and 94063. -/
theorem calculateWaterStorage_spec_scenarioA :
    (0 ≤ scenarioASite.roofArea ∧ 0 ≤ scenarioASite.openSpace
      ∧ 0 ≤ mockRainfallData.currentYear) ∧
    ((calculateWaterStorage scenarioASite mockRainfallData).roofRunoffCoeff = 0.85
      ∧ (calculateWaterStorage scenarioASite mockRainfallData).openSpaceRunoffCoeff = 0.45) ∧
    (calculateWaterStorage scenarioASite mockRainfallData).roofHarvest = 106250 ∧
    (calculateWaterStorage scenarioASite mockRainfallData).openSpaceHarvest = 28125 ∧
    (calculateWaterStorage scenarioASite mockRainfallData).totalHarvestable = 134375 ∧
    (calculateWaterStorage scenarioASite mockRainfallData).recommendedStorage = 50000 ∧
    (calculateWaterStorage scenarioASite mockRainfallData).daysCovered = 83 ∧
    (calculateWaterStorage scenarioASite mockRainfallData).waterSavingPotential = 94063 := by
  have h0 : 0 ≤ scenarioASite.roofArea ∧ 0 ≤ scenarioASite.openSpace
      ∧ 0 ≤ mockRainfallData.currentYear := by
    norm_num [scenarioASite, mockRainfallData]
  have h := calculateWaterStorage_spec scenarioASite mockRainfallData h0.1 h0.2.1 h0.2.2
  refine ⟨h0, ⟨h.2.2.2.2.2.2.1, ?_⟩, ?_⟩
  · rw [h.2.2.2.2.2.2.2]
    exact getRunoffCoefficient_loamy
  · simp [scenarioASite, mockRainfallData, calculateWaterStorage, getRunoffCoefficient_loamy,
      mathRound]
    norm_num [Int.floor_eq_iff]

/-- C2: for a site with non-negative areas and a non-negative rainfall, the
`recommendedStorage` returned by `calculateWaterStorage` is at most 50000. -/
theorem recommendedStorage_le_cap (data : SiteData) (rainfallData : RainfallData)
    (_hr : 0 ≤ data.roofArea) (_ho : 0 ≤ data.openSpace) (_hy : 0 ≤ rainfallData.currentYear) :
    (calculateWaterStorage data rainfallData).recommendedStorage ≤ 50000 := by
  have h := mathRound_mono (min_le_right
    ((data.roofArea * rainfallData.currentYear * 0.85
      + data.openSpace * rainfallData.currentYear * getRunoffCoefficient data.soilType) * 0.6)
    (50000 : ℚ))
  rw [show (50000 : ℚ) = ((50000 : ℤ) : ℚ) by norm_num, mathRound_intCast] at h
  have h2 : ((mathRound (min
    ((data.roofArea * rainfallData.currentYear * 0.85
      + data.openSpace * rainfallData.currentYear * getRunoffCoefficient data.soilType) * 0.6)
    ((50000 : ℤ) : ℚ)) : ℤ) : ℚ) ≤ ((50000 : ℤ) : ℚ) := by exact_mod_cast h
  simpa [calculateWaterStorage] using h2

/-- C2 at scenario A, where the cap is reached. -/
theorem recommendedStorage_le_cap_scenarioA :
    (0 ≤ scenarioASite.roofArea ∧ 0 ≤ scenarioASite.openSpace
      ∧ 0 ≤ mockRainfallData.currentYear) ∧
    (calculateWaterStorage scenarioASite mockRainfallData).recommendedStorage ≤ 50000 :=
  ⟨by norm_num [scenarioASite, mockRainfallData],
   recommendedStorage_le_cap scenarioASite mockRainfallData
    (by norm_num [scenarioASite]) (by norm_num [scenarioASite]) (by norm_num [mockRainfallData])⟩


/-- C3 fails as stated: a 60 m² roof under 1 mm of rain gives
`totalHarvestable = 51` and `recommendedStorage = 31`, and `31 > 0.6 * 51 = 30.6`:
the two fields are rounded independently. -/
theorem recommendedStorage_exceeds_sixty_percent :
    0 < sixtySquareMetreRoof.roofArea ∧ 0 ≤ sixtySquareMetreRoof.openSpace ∧
    0 ≤ oneMillimetreYear.currentYear ∧
    (calculateWaterStorage sixtySquareMetreRoof oneMillimetreYear).totalHarvestable = 51 ∧
    (calculateWaterStorage sixtySquareMetreRoof oneMillimetreYear).recommendedStorage = 31 ∧
    ¬ ((calculateWaterStorage sixtySquareMetreRoof oneMillimetreYear).recommendedStorage
        ≤ 0.6 * (calculateWaterStorage sixtySquareMetreRoof oneMillimetreYear).totalHarvestable) := by
  have ht : (calculateWaterStorage sixtySquareMetreRoof oneMillimetreYear).totalHarvestable = 51 := by
    simp [sixtySquareMetreRoof, oneMillimetreYear, calculateWaterStorage, mathRound]
    norm_num [Int.floor_eq_iff]
  have hs : (calculateWaterStorage sixtySquareMetreRoof oneMillimetreYear).recommendedStorage = 31 := by
    simp [sixtySquareMetreRoof, oneMillimetreYear, calculateWaterStorage, mathRound]
    norm_num [Int.floor_eq_iff]
  refine ⟨by norm_num [sixtySquareMetreRoof], by norm_num [sixtySquareMetreRoof],
    by norm_num [oneMillimetreYear], ht, hs, ?_⟩
  rw [ht, hs]; norm_num

/-- C3, amended: for a valid site and a non-negative rainfall the rounded
fields satisfy `recommendedStorage ≤ 0.6 * totalHarvestable + 0.6`. -/
theorem recommendedStorage_le_sixty_percent_slack (data : SiteData) (rainfallData : RainfallData)
    (_hr : 0 < data.roofArea) (_ho : 0 ≤ data.openSpace) (_hy : 0 ≤ rainfallData.currentYear) :
    (calculateWaterStorage data rainfallData).recommendedStorage
      ≤ 0.6 * (calculateWaterStorage data rainfallData).totalHarvestable + 0.6 := by
  set T : ℚ := data.roofArea * rainfallData.currentYear * 0.85
      + data.openSpace * rainfallData.currentYear * getRunoffCoefficient data.soilType with hT
  have h1 := mathRound_le (min (T * 0.6) 50000)
  have h2 := lt_mathRound T
  have h3 : min (T * 0.6) 50000 ≤ T * 0.6 := min_le_left _ _
  have h4 : (5 : ℚ) * (mathRound (min (T * 0.6) 50000) : ℤ) < 3 * (mathRound T : ℤ) + 4 := by
    rw [show (0.6 : ℚ) = 3 / 5 by norm_num] at h1 h3
    linarith
  have h5 : 5 * mathRound (min (T * 0.6) 50000) < 3 * mathRound T + 4 := by exact_mod_cast h4
  have h6 : 5 * mathRound (min (T * 0.6) 50000) ≤ 3 * mathRound T + 3 := by omega
  have h7 : (5 : ℚ) * (mathRound (min (T * 0.6) 50000) : ℤ) ≤ 3 * (mathRound T : ℤ) + 3 := by
    exact_mod_cast h6
  show ((mathRound (min (T * 0.6) 50000) : ℤ) : ℚ) ≤ 0.6 * ((mathRound T : ℤ) : ℚ) + 0.6
  rw [show (0.6 : ℚ) = 3 / 5 by norm_num]
  linarith

/-- C3, amended, at the 60 m² roof under 1 mm of rain. -/
theorem recommendedStorage_le_sixty_percent_slack_sixtyRoof :
    (0 < sixtySquareMetreRoof.roofArea ∧ 0 ≤ sixtySquareMetreRoof.openSpace ∧
    0 ≤ oneMillimetreYear.currentYear) ∧
    (calculateWaterStorage sixtySquareMetreRoof oneMillimetreYear).recommendedStorage
      ≤ 0.6 * (calculateWaterStorage sixtySquareMetreRoof oneMillimetreYear).totalHarvestable + 0.6 :=
  ⟨by norm_num [sixtySquareMetreRoof, oneMillimetreYear],
   recommendedStorage_le_sixty_percent_slack sixtySquareMetreRoof oneMillimetreYear
    (by norm_num [sixtySquareMetreRoof]) (by norm_num [sixtySquareMetreRoof])
    (by norm_num [oneMillimetreYear])⟩

/-! ## Cost estimation -/

theorem reduceSum_values (b : CostBreakdown) : reduceSum b.values = b.sum := by
  simp [reduceSum, CostBreakdown.values, CostBreakdown.sum, List.foldl]

theorem scenarioA_storage :
    (calculateWaterStorage scenarioASite mockRainfallData).recommendedStorage = 50000 ∧
    (calculateWaterStorage scenarioASite mockRainfallData).waterSavingPotential = 94063 := by
  simp [scenarioASite, mockRainfallData, calculateWaterStorage, getRunoffCoefficient_loamy,
    mathRound]
  norm_num [Int.floor_eq_iff]

theorem scenarioA_cost_sum :
    (costBreakdown scenarioASite (calculateWaterStorage scenarioASite mockRainfallData)).sum
      = 595000 := by
  have hl : ¬ ("loamy" = "clay" ∨ "loamy" = "rocky") := by decide
  simp only [costBreakdown, CostBreakdown.sum, scenarioA_storage.1]
  norm_num [scenarioASite, hl]

/-- C4: for a storage estimate with `recommendedStorage > 0`, the
`totalInstallation` returned by `calculateCostEstimation` is the nearest integer
(a half rounded up) to the sum of the nine amounts of the returned breakdown: it
differs from that sum by at most 1/2 and equals it when the sum is an integer. -/
theorem totalInstallation_round_of_breakdown (data : SiteData) (s : StorageCalc)
    (_hs : 0 < s.recommendedStorage) :
    IsNearestHalfUp (calculateCostEstimation data s).breakdown.sum
      (calculateCostEstimation data s).totalInstallation ∧
    |((calculateCostEstimation data s).totalInstallation : ℚ)
      - (calculateCostEstimation data s).breakdown.sum| ≤ 1 / 2 ∧
    ∀ k : ℤ, (calculateCostEstimation data s).breakdown.sum = k →
      (calculateCostEstimation data s).totalInstallation = k := by
  have hb : (calculateCostEstimation data s).breakdown = costBreakdown data s := rfl
  have ht : (calculateCostEstimation data s).totalInstallation
      = mathRound (costBreakdown data s).sum := by
    show mathRound (reduceSum (costBreakdown data s).values) = _
    rw [reduceSum_values]
  rw [hb, ht]
  refine ⟨mathRound_isNearest _, ?_, ?_⟩
  · have h1 := mathRound_le (costBreakdown data s).sum
    have h2 := lt_mathRound (costBreakdown data s).sum
    rw [abs_le]
    constructor <;> linarith
  · intro k hk
    rw [hk, mathRound_intCast]

/-- C4 at scenario A: the storage is 50000 litres, the nine amounts sum to
595000 and `totalInstallation` is 595000. -/
theorem totalInstallation_round_of_breakdown_scenarioA :
    0 < (calculateWaterStorage scenarioASite mockRainfallData).recommendedStorage ∧
    (calculateCostEstimation scenarioASite
      (calculateWaterStorage scenarioASite mockRainfallData)).totalInstallation = 595000 := by
  have hs : 0 < (calculateWaterStorage scenarioASite mockRainfallData).recommendedStorage := by
    rw [scenarioA_storage.1]; norm_num
  refine ⟨hs, ?_⟩
  have h := (totalInstallation_round_of_breakdown scenarioASite
    (calculateWaterStorage scenarioASite mockRainfallData) hs).2.2 595000
  exact h (by exact_mod_cast scenarioA_cost_sum)

theorem quarterMetre_storage :
    (calculateWaterStorage quarterMetreSite mockRainfallData).recommendedStorage = 50000 := by
  simp [quarterMetreSite, mockRainfallData, calculateWaterStorage, getRunoffCoefficient_loamy,
    mathRound]
  norm_num [Int.floor_eq_iff]

theorem quarterMetre_cost_sum :
    (costBreakdown quarterMetreSite (calculateWaterStorage quarterMetreSite mockRainfallData)).sum
      = 595037.5 := by
  have hl : ¬ ("loamy" = "clay" ∨ "loamy" = "rocky") := by decide
  simp only [costBreakdown, CostBreakdown.sum, quarterMetre_storage]
  norm_num [quarterMetreSite, hl]

/-- C5 fails as stated: for the 100.25 m² roof under the default rainfall the
storage is 50000 litres and the cost is 595037.5, so `totalInstallation = 595038`,
`governmentSubsidy = 178511` and `netCost = 416526`, while
`595038 - 178511 = 416527`. -/
theorem netCost_ne_total_sub_subsidy :
    0 < (calculateWaterStorage quarterMetreSite mockRainfallData).recommendedStorage ∧
    (calculateCostEstimation quarterMetreSite
      (calculateWaterStorage quarterMetreSite mockRainfallData)).totalInstallation = 595038 ∧
    (calculateCostEstimation quarterMetreSite
      (calculateWaterStorage quarterMetreSite mockRainfallData)).governmentSubsidy = 178511 ∧
    (calculateCostEstimation quarterMetreSite
      (calculateWaterStorage quarterMetreSite mockRainfallData)).netCost = 416526 ∧
    (calculateCostEstimation quarterMetreSite
      (calculateWaterStorage quarterMetreSite mockRainfallData)).netCost ≠
    (calculateCostEstimation quarterMetreSite
      (calculateWaterStorage quarterMetreSite mockRainfallData)).totalInstallation -
    (calculateCostEstimation quarterMetreSite
      (calculateWaterStorage quarterMetreSite mockRainfallData)).governmentSubsidy := by
  have e1 : (calculateCostEstimation quarterMetreSite
      (calculateWaterStorage quarterMetreSite mockRainfallData)).totalInstallation = 595038 := by
    show mathRound (reduceSum (costBreakdown _ _).values) = _
    rw [reduceSum_values, quarterMetre_cost_sum]
    norm_num [mathRound, Int.floor_eq_iff]
  have e2 : (calculateCostEstimation quarterMetreSite
      (calculateWaterStorage quarterMetreSite mockRainfallData)).governmentSubsidy = 178511 := by
    show mathRound (reduceSum (costBreakdown _ _).values * 0.3) = _
    rw [reduceSum_values, quarterMetre_cost_sum]
    norm_num [mathRound, Int.floor_eq_iff]
  have e3 : (calculateCostEstimation quarterMetreSite
      (calculateWaterStorage quarterMetreSite mockRainfallData)).netCost = 416526 := by
    show mathRound (reduceSum (costBreakdown _ _).values * 0.7) = _
    rw [reduceSum_values, quarterMetre_cost_sum]
    norm_num [mathRound, Int.floor_eq_iff]
  refine ⟨by rw [quarterMetre_storage]; norm_num, e1, e2, e3, ?_⟩
  rw [e1, e2, e3]; norm_num

/-- C5, amended: for a storage estimate with `recommendedStorage > 0`, `netCost`
differs from `totalInstallation - governmentSubsidy` by at most 1 (the three
values are rounded independently from the unrounded cost), and the two are equal
when the sum of the breakdown is an integer multiple of 10. -/
theorem netCost_near_total_sub_subsidy (data : SiteData) (s : StorageCalc)
    (_hs : 0 < s.recommendedStorage) :
    |(calculateCostEstimation data s).netCost -
      ((calculateCostEstimation data s).totalInstallation -
        (calculateCostEstimation data s).governmentSubsidy)| ≤ 1 ∧
    ∀ k : ℤ, (calculateCostEstimation data s).breakdown.sum = 10 * k →
      (calculateCostEstimation data s).netCost =
        (calculateCostEstimation data s).totalInstallation -
          (calculateCostEstimation data s).governmentSubsidy := by
  have hb : (calculateCostEstimation data s).breakdown = costBreakdown data s := rfl
  have ht : (calculateCostEstimation data s).totalInstallation
      = mathRound (costBreakdown data s).sum := by
    show mathRound (reduceSum (costBreakdown data s).values) = _
    rw [reduceSum_values]
  have hg : (calculateCostEstimation data s).governmentSubsidy
      = mathRound ((costBreakdown data s).sum * 0.3) := by
    show mathRound (reduceSum (costBreakdown data s).values * 0.3) = _
    rw [reduceSum_values]
  have hn : (calculateCostEstimation data s).netCost
      = mathRound ((costBreakdown data s).sum * 0.7) := by
    show mathRound (reduceSum (costBreakdown data s).values * 0.7) = _
    rw [reduceSum_values]
  rw [hb, ht, hg, hn]
  generalize (costBreakdown data s).sum = t
  constructor
  · have a1 := mathRound_le t
    have a2 := lt_mathRound t
    have b1 := mathRound_le (t * 0.3)
    have b2 := lt_mathRound (t * 0.3)
    have c1 := mathRound_le (t * 0.7)
    have c2 := lt_mathRound (t * 0.7)
    rw [show (0.3 : ℚ) = 3 / 10 by norm_num] at b1 b2
    rw [show (0.7 : ℚ) = 7 / 10 by norm_num] at c1 c2
    rw [show (0.3 : ℚ) = 3 / 10 by norm_num, show (0.7 : ℚ) = 7 / 10 by norm_num]
    have u : ((mathRound (t * (7 / 10)) - (mathRound t - mathRound (t * (3 / 10))) : ℤ) : ℚ)
        < 2 := by push_cast; linarith
    have l : (-2 : ℚ) <
        ((mathRound (t * (7 / 10)) - (mathRound t - mathRound (t * (3 / 10))) : ℤ) : ℚ) := by
      push_cast; linarith
    have u2 : mathRound (t * (7 / 10)) - (mathRound t - mathRound (t * (3 / 10))) < 2 := by
      exact_mod_cast u
    have l2 : -2 < mathRound (t * (7 / 10)) - (mathRound t - mathRound (t * (3 / 10))) := by
      exact_mod_cast l
    rw [abs_le]
    constructor <;> omega
  · intro k hk
    have e3 : t * 0.3 = ((3 * k : ℤ) : ℚ) := by rw [hk]; push_cast; norm_num; ring
    have e7 : t * 0.7 = ((7 * k : ℤ) : ℚ) := by rw [hk]; push_cast; norm_num; ring
    have e1 : t = ((10 * k : ℤ) : ℚ) := by rw [hk]; push_cast; ring
    rw [e3, e7, mathRound_intCast, mathRound_intCast]
    rw [e1, mathRound_intCast]
    ring

/-- C5, amended, at scenario A: the cost 595000 is a multiple of 10 and
`netCost = totalInstallation - governmentSubsidy`. -/
theorem netCost_near_total_sub_subsidy_scenarioA :
    0 < (calculateWaterStorage scenarioASite mockRainfallData).recommendedStorage ∧
    (calculateCostEstimation scenarioASite
      (calculateWaterStorage scenarioASite mockRainfallData)).netCost =
      (calculateCostEstimation scenarioASite
        (calculateWaterStorage scenarioASite mockRainfallData)).totalInstallation -
      (calculateCostEstimation scenarioASite
        (calculateWaterStorage scenarioASite mockRainfallData)).governmentSubsidy := by
  have hs : 0 < (calculateWaterStorage scenarioASite mockRainfallData).recommendedStorage := by
    rw [scenarioA_storage.1]; norm_num
  refine ⟨hs, ?_⟩
  refine (netCost_near_total_sub_subsidy scenarioASite
    (calculateWaterStorage scenarioASite mockRainfallData) hs).2 59500 ?_
  have := scenarioA_cost_sum
  rw [show (calculateCostEstimation scenarioASite
    (calculateWaterStorage scenarioASite mockRainfallData)).breakdown
      = costBreakdown scenarioASite (calculateWaterStorage scenarioASite mockRainfallData) from rfl,
    this]
  norm_num

theorem costBreakdown_sum_eq (data : SiteData) (s : StorageCalc) :
    (costBreakdown data s).sum =
      30000 + data.roofArea * 150 + s.recommendedStorage * (21 / 2)
        + (if data.soilType = "clay" ∨ data.soilType = "rocky"
            then s.recommendedStorage * (4 / 5) else 0)
        + (if s.recommendedStorage > 10000 then 25000 else 0) := by
  simp only [costBreakdown, CostBreakdown.sum]
  split_ifs <;> ring

theorem costBreakdown_sum_ge (data : SiteData) (s : StorageCalc)
    (hr : 0 ≤ data.roofArea) (hs : 0 ≤ s.recommendedStorage) :
    30000 ≤ (costBreakdown data s).sum := by
  rw [costBreakdown_sum_eq]
  have h1 : 0 ≤ data.roofArea * 150 := by positivity
  have h2 : 0 ≤ s.recommendedStorage * (21 / 2) := by positivity
  have h3 : 0 ≤ s.recommendedStorage * (4 / 5) := by positivity
  split_ifs <;> linarith

theorem annualMaintenance_eq (data : SiteData) (s : StorageCalc) :
    (calculateCostEstimation data s).annualMaintenance
      = if s.recommendedStorage > 10000 then 7500 else 6000 := by
  show mathRound (reduceSum (MaintenanceCost.values _)) = _
  simp only [reduceSum, MaintenanceCost.values, List.foldl, costBreakdown]
  by_cases h : s.recommendedStorage > 10000
  · simp only [h, if_true]
    norm_num [mathRound, Int.floor_eq_iff]
  · simp only [h, if_false]
    norm_num [mathRound, Int.floor_eq_iff]

theorem paybackPeriod_eq (data : SiteData) (s : StorageCalc) :
    (calculateCostEstimation data s).paybackPeriod =
      JSNum.div (JSNum.round (JSNum.mul
        (JSNum.div (JSNum.fin (costBreakdown data s).sum)
          (JSNum.fin (s.waterSavingPotential * 0.05
            - (calculateCostEstimation data s).annualMaintenance)))
        (JSNum.fin 10))) (JSNum.fin 10) := by
  rw [annualMaintenance_eq]
  show JSNum.div (JSNum.round (JSNum.mul (JSNum.div (JSNum.fin (reduceSum (costBreakdown data s).values))
    (JSNum.fin (s.waterSavingPotential * 0.05 - reduceSum (MaintenanceCost.values _)))) _)) _ = _
  rw [reduceSum_values]
  simp only [reduceSum, MaintenanceCost.values, List.foldl, costBreakdown]
  by_cases h : s.recommendedStorage > 10000
  · simp only [h, if_true]
    norm_num
  · simp only [h, if_false]
    norm_num

theorem signedInf_isFinite (t : ℚ) : (JSNum.signedInf t).isFinite = false := by
  unfold JSNum.signedInf
  split_ifs <;> rfl

theorem roundTo_signedInf (t k : ℚ) (hk : 0 < k) :
    JSNum.div (JSNum.round (JSNum.mul (JSNum.signedInf t) (JSNum.fin k))) (JSNum.fin k)
      = JSNum.signedInf t := by
  have hk2 : ¬ (k < 0) := not_lt.mpr hk.le
  have hk3 : ¬ (0 < -k) := by linarith
  have hk4 : -k < 0 := by linarith
  unfold JSNum.signedInf
  split_ifs <;> simp [JSNum.mul, JSNum.round, JSNum.div, JSNum.signedInf, hk, hk.le, hk2, hk3, hk4]

theorem scenarioA_maintenance :
    (calculateCostEstimation scenarioASite
      (calculateWaterStorage scenarioASite mockRainfallData)).annualMaintenance = 7500 := by
  rw [annualMaintenance_eq, scenarioA_storage.1]
  norm_num

/-- C6 fails as stated: at scenario A the annual savings `94063 * 0.05 = 4703.15`
are below the annual maintenance 7500 and the returned `paybackPeriod` is the
negative number `-212.7`. -/
theorem paybackPeriod_negative_scenarioA :
    (calculateWaterStorage scenarioASite mockRainfallData).waterSavingPotential * 0.05
      ≤ (calculateCostEstimation scenarioASite
          (calculateWaterStorage scenarioASite mockRainfallData)).annualMaintenance ∧
    (calculateCostEstimation scenarioASite
      (calculateWaterStorage scenarioASite mockRainfallData)).paybackPeriod
        = JSNum.fin (-212.7) ∧
    (-212.7 : ℚ) < 0 := by
  refine ⟨?_, ?_, by norm_num⟩
  · rw [scenarioA_maintenance, scenarioA_storage.2]; norm_num
  · rw [paybackPeriod_eq, scenarioA_maintenance, scenarioA_storage.2, scenarioA_cost_sum]
    norm_num [JSNum.div, JSNum.mul, JSNum.round, mathRound, Int.floor_eq_iff]

/-- C6, amended: for a site with `0 ≤ roofArea ≤ 10^6` and a storage estimate
with `0 ≤ recommendedStorage ≤ 50000` and an integer `waterSavingPotential` (as
`calculateWaterStorage` returns) whose annual savings
`waterSavingPotential * 0.05` are at most the annual maintenance,
`calculateCostEstimation` returns the unguarded quotient: the total cost is at
least 30000; if the savings are strictly smaller, `paybackPeriod` is a finite
number that is at most 0; if they are equal, `paybackPeriod` is `Infinity`. -/
theorem paybackPeriod_of_savings_le_maintenance (data : SiteData) (s : StorageCalc) (k : ℤ)
    (hr : 0 ≤ data.roofArea) (_hr : data.roofArea ≤ 10 ^ 6)
    (hs : 0 ≤ s.recommendedStorage) (_hs : s.recommendedStorage ≤ 50000)
    (_hk : s.waterSavingPotential = k)
    (_h : s.waterSavingPotential * 0.05 ≤ (calculateCostEstimation data s).annualMaintenance) :
    30000 ≤ (calculateCostEstimation data s).breakdown.sum ∧
    (s.waterSavingPotential * 0.05 < (calculateCostEstimation data s).annualMaintenance →
      ∃ q : ℚ, (calculateCostEstimation data s).paybackPeriod = JSNum.fin q ∧ q ≤ 0) ∧
    (s.waterSavingPotential * 0.05 = (calculateCostEstimation data s).annualMaintenance →
      (calculateCostEstimation data s).paybackPeriod = JSNum.posInf) := by
  have hb : (calculateCostEstimation data s).breakdown = costBreakdown data s := rfl
  have hsum := costBreakdown_sum_ge data s hr hs
  rw [hb, paybackPeriod_eq]
  refine ⟨hsum, ?_, ?_⟩
  all_goals generalize ((calculateCostEstimation data s).annualMaintenance : ℚ) = m
  all_goals generalize (costBreakdown data s).sum = t at hsum
  · intro hlt
    have hd : s.waterSavingPotential * 0.05 - m ≠ 0 := by
      intro h0; linarith
    have hneg : s.waterSavingPotential * 0.05 - m < 0 := by linarith
    refine ⟨((mathRound (t / (s.waterSavingPotential * 0.05 - m) * 10) : ℤ) : ℚ) / 10, ?_, ?_⟩
    · simp [JSNum.div, JSNum.mul, JSNum.round, hd]
    · have hq : t / (s.waterSavingPotential * 0.05 - m) * 10 ≤ 0 := by
        have : t / (s.waterSavingPotential * 0.05 - m) ≤ 0 :=
          div_nonpos_of_nonneg_of_nonpos (by linarith) hneg.le
        linarith
      have hr' := mathRound_mono hq
      rw [show ((0 : ℚ)) = ((0 : ℤ) : ℚ) by norm_num, mathRound_intCast] at hr'
      have : ((mathRound (t / (s.waterSavingPotential * 0.05 - m) * 10) : ℤ) : ℚ) ≤ 0 := by
        exact_mod_cast hr'
      linarith
  · intro heq
    have hd : s.waterSavingPotential * 0.05 - m = 0 := by linarith
    rw [hd]
    have hq : JSNum.div (JSNum.fin t) (JSNum.fin 0) = JSNum.signedInf t := by
      simp [JSNum.div]
    rw [hq, roundTo_signedInf t 10 (by norm_num)]
    have ht : 0 < t := by linarith
    simp [JSNum.signedInf, ht]

/-- C6, amended, at scenario A: the hypotheses hold, the savings are below the
maintenance and the returned `paybackPeriod` is a finite number that is at
most 0. -/
theorem paybackPeriod_of_savings_le_maintenance_scenarioA :
    (0 ≤ scenarioASite.roofArea ∧ scenarioASite.roofArea ≤ 10 ^ 6 ∧
      0 ≤ (calculateWaterStorage scenarioASite mockRainfallData).recommendedStorage ∧
      (calculateWaterStorage scenarioASite mockRainfallData).recommendedStorage ≤ 50000 ∧
      (calculateWaterStorage scenarioASite mockRainfallData).waterSavingPotential
        = ((94063 : ℤ) : ℚ) ∧
      (calculateWaterStorage scenarioASite mockRainfallData).waterSavingPotential * 0.05
        ≤ (calculateCostEstimation scenarioASite
            (calculateWaterStorage scenarioASite mockRainfallData)).annualMaintenance) ∧
    ∃ q : ℚ,
      (calculateCostEstimation scenarioASite
        (calculateWaterStorage scenarioASite mockRainfallData)).paybackPeriod = JSNum.fin q
      ∧ q ≤ 0 := by
  have hr : 0 ≤ scenarioASite.roofArea := by norm_num [scenarioASite]
  have hr' : scenarioASite.roofArea ≤ 10 ^ 6 := by norm_num [scenarioASite]
  have hs' : (calculateWaterStorage scenarioASite mockRainfallData).recommendedStorage
      ≤ 50000 := by
    rw [scenarioA_storage.1]
  have hs : 0 ≤ (calculateWaterStorage scenarioASite mockRainfallData).recommendedStorage := by
    rw [scenarioA_storage.1]; norm_num
  have hk : (calculateWaterStorage scenarioASite mockRainfallData).waterSavingPotential
      = ((94063 : ℤ) : ℚ) := by
    rw [scenarioA_storage.2]; norm_num
  have hle : (calculateWaterStorage scenarioASite mockRainfallData).waterSavingPotential * 0.05
      ≤ (calculateCostEstimation scenarioASite
          (calculateWaterStorage scenarioASite mockRainfallData)).annualMaintenance := by
    rw [scenarioA_maintenance, scenarioA_storage.2]; norm_num
  have hlt : (calculateWaterStorage scenarioASite mockRainfallData).waterSavingPotential * 0.05
      < (calculateCostEstimation scenarioASite
          (calculateWaterStorage scenarioASite mockRainfallData)).annualMaintenance := by
    rw [scenarioA_maintenance, scenarioA_storage.2]; norm_num
  exact ⟨⟨hr, hr', hs, hs', hk, hle⟩,
    (paybackPeriod_of_savings_le_maintenance scenarioASite
      (calculateWaterStorage scenarioASite mockRainfallData) 94063 hr hr' hs hs' hk hle).2.1
      hlt⟩

theorem costPerLiterCapacity_eq (data : SiteData) (s : StorageCalc) :
    (calculateCostEstimation data s).costPerLiterCapacity =
      JSNum.div (JSNum.round (JSNum.mul
        (JSNum.div (JSNum.fin (costBreakdown data s).sum) (JSNum.fin s.recommendedStorage))
        (JSNum.fin 100))) (JSNum.fin 100) := by
  show JSNum.div (JSNum.round (JSNum.mul
    (JSNum.div (JSNum.fin (reduceSum (costBreakdown data s).values)) _) _)) _ = _
  rw [reduceSum_values]

theorem dryYear_storage :
    (calculateWaterStorage scenarioASite dryYear).recommendedStorage = 0 := by
  simp [scenarioASite, dryYear, calculateWaterStorage, mathRound]
  norm_num [Int.floor_eq_iff]

/-- C7 fails as stated: for the scenario A site in a year without rain the
storage estimate has `recommendedStorage = 0`, the total cost is 45000, and
`costPerLiterCapacity` is `45000 / 0 = Infinity`, the result of the division by
zero, not a sentinel. -/
theorem costPerLiterCapacity_infinite_dryYear :
    (calculateWaterStorage scenarioASite dryYear).recommendedStorage = 0 ∧
    (calculateCostEstimation scenarioASite
      (calculateWaterStorage scenarioASite dryYear)).breakdown.sum = 45000 ∧
    (calculateCostEstimation scenarioASite
      (calculateWaterStorage scenarioASite dryYear)).costPerLiterCapacity = JSNum.posInf := by
  have hsum : (costBreakdown scenarioASite (calculateWaterStorage scenarioASite dryYear)).sum
      = 45000 := by
    rw [costBreakdown_sum_eq, dryYear_storage]
    norm_num [scenarioASite]
  refine ⟨dryYear_storage, hsum, ?_⟩
  rw [costPerLiterCapacity_eq, hsum, dryYear_storage]
  simp [JSNum.div, JSNum.mul, JSNum.round, JSNum.signedInf]

/-- C7, amended: for a storage estimate with `recommendedStorage = 0`,
`calculateCostEstimation` divides the total cost by zero: `costPerLiterCapacity`
is not a finite number, and no sentinel is returned. -/
theorem costPerLiterCapacity_of_zero_storage (data : SiteData) (s : StorageCalc)
    (hs : s.recommendedStorage = 0) :
    (calculateCostEstimation data s).costPerLiterCapacity.isFinite = false := by
  rw [costPerLiterCapacity_eq, hs]
  have hq : JSNum.div (JSNum.fin (costBreakdown data s).sum) (JSNum.fin 0)
      = JSNum.signedInf (costBreakdown data s).sum := by
    simp [JSNum.div]
  rw [hq, roundTo_signedInf _ 100 (by norm_num)]
  exact signedInf_isFinite _

/-- C7, amended, at the scenario A site in a year without rain. -/
theorem costPerLiterCapacity_of_zero_storage_dryYear :
    (calculateWaterStorage scenarioASite dryYear).recommendedStorage = 0 ∧
    (calculateCostEstimation scenarioASite
      (calculateWaterStorage scenarioASite dryYear)).costPerLiterCapacity.isFinite = false :=
  ⟨dryYear_storage,
   costPerLiterCapacity_of_zero_storage scenarioASite
    (calculateWaterStorage scenarioASite dryYear) dryYear_storage⟩

/-! ## System recommendations -/

theorem scenarioC_total :
    (calculateWaterStorage scenarioCSite scenarioCRain).totalHarvestable = 4250 := by
  simp [scenarioCSite, scenarioCRain, calculateWaterStorage, mathRound]
  norm_num [Int.floor_eq_iff]

theorem systemTier_fin (t : ℚ) :
    ((systemTier (JSNum.fin t)).1 = "Basic Rooftop Harvesting" ↔ t < 50000) ∧
    ((systemTier (JSNum.fin t)).1 = "Intermediate RWH System" ↔ 50000 ≤ t ∧ t < 150000) ∧
    ((systemTier (JSNum.fin t)).1 = "Advanced RWH System" ↔ 150000 ≤ t) ∧
    (t < 50000 → (systemTier (JSNum.fin t)).2 = basicComponents) ∧
    (50000 ≤ t → t < 150000 → (systemTier (JSNum.fin t)).2 = intermediateComponents) ∧
    (150000 ≤ t → (systemTier (JSNum.fin t)).2 = advancedComponents) := by
  have n1 : ("Basic Rooftop Harvesting" : String) ≠ "Intermediate RWH System" := by decide
  have n2 : ("Basic Rooftop Harvesting" : String) ≠ "Advanced RWH System" := by decide
  have n3 : ("Intermediate RWH System" : String) ≠ "Advanced RWH System" := by decide
  simp only [systemTier, JSNum.lt]
  by_cases h1 : t < 50000
  · have h2 : ¬ (50000 ≤ t) := not_le.mpr h1
    have h3 : ¬ (150000 ≤ t) := by intro h; linarith
    simp [h1, h2, h3, n1, n2]
  · have h1' : 50000 ≤ t := not_lt.mp h1
    by_cases h2 : t < 150000
    · have h3 : ¬ (150000 ≤ t) := not_le.mpr h2
      simp [h1, h1', h2, h3, n1.symm, n3]
    · have h3 : 150000 ≤ t := not_lt.mp h2
      simp [h1, h1', h2, h3, n2.symm, n3.symm]

/-- C8 fails as stated: when `totalHarvestable` is `NaN` both comparisons of the
tier selection are false and the final `else` returns the Advanced tier,
although `NaN >= 150000` is false. -/
theorem systemTier_nan_advanced :
    (systemTier JSNum.nan).1 = "Advanced RWH System" ∧
    (systemTier JSNum.nan).2 = advancedComponents ∧
    JSNum.le (JSNum.fin 150000) JSNum.nan = false := by
  refine ⟨?_, ?_, ?_⟩
  · simp [systemTier, JSNum.lt]
  · simp [systemTier, JSNum.lt]
  · simp [JSNum.le]

/-- C8, amended: the tier selection of `getSystemRecommendations` returns the
Basic tier exactly when `totalHarvestable < 50000`, the Intermediate tier
exactly when `50000 <= totalHarvestable < 150000`, and the Advanced tier in
every other case, that is exactly when `totalHarvestable >= 150000` or
`totalHarvestable` is `NaN`; each tier has its fixed component list of 5, 5 and
6 entries.  On a finite `totalHarvestable` the three cases are `< 50000`,
`50000 ≤ · < 150000` and `≥ 150000`; scenario C has `totalHarvestable = 4250`
and the Basic tier. -/
theorem getSystemRecommendations_tier :
    (∀ t : JSNum,
      ((systemTier t).1 = "Basic Rooftop Harvesting" ↔ JSNum.lt t (JSNum.fin 50000) = true) ∧
      ((systemTier t).1 = "Intermediate RWH System"
        ↔ JSNum.le (JSNum.fin 50000) t = true ∧ JSNum.lt t (JSNum.fin 150000) = true) ∧
      ((systemTier t).1 = "Advanced RWH System"
        ↔ JSNum.le (JSNum.fin 150000) t = true ∨ t = JSNum.nan) ∧
      ((systemTier t).1 = "Basic Rooftop Harvesting" →
        (systemTier t).2 = basicComponents) ∧
      ((systemTier t).1 = "Intermediate RWH System" →
        (systemTier t).2 = intermediateComponents) ∧
      ((systemTier t).1 = "Advanced RWH System" →
        (systemTier t).2 = advancedComponents)) ∧
    (∀ (data : SiteData) (s : StorageCalc),
      (getSystemRecommendations data s).systemType
        = (systemTier (JSNum.fin s.totalHarvestable)).1 ∧
      (getSystemRecommendations data s).components
        = (systemTier (JSNum.fin s.totalHarvestable)).2 ∧
      ((getSystemRecommendations data s).systemType = "Basic Rooftop Harvesting"
        ↔ s.totalHarvestable < 50000) ∧
      ((getSystemRecommendations data s).systemType = "Intermediate RWH System"
        ↔ 50000 ≤ s.totalHarvestable ∧ s.totalHarvestable < 150000) ∧
      ((getSystemRecommendations data s).systemType = "Advanced RWH System"
        ↔ 150000 ≤ s.totalHarvestable)) ∧
    basicComponents.length = 5 ∧ intermediateComponents.length = 5 ∧
    advancedComponents.length = 6 ∧
    (calculateWaterStorage scenarioCSite scenarioCRain).totalHarvestable = 4250 ∧
    (getSystemRecommendations scenarioCSite
      (calculateWaterStorage scenarioCSite scenarioCRain)).systemType
        = "Basic Rooftop Harvesting" := by
  have n1 : ("Basic Rooftop Harvesting" : String) ≠ "Intermediate RWH System" := by decide
  have n2 : ("Basic Rooftop Harvesting" : String) ≠ "Advanced RWH System" := by decide
  have n3 : ("Intermediate RWH System" : String) ≠ "Advanced RWH System" := by decide
  have fin_case : ∀ (data : SiteData) (s : StorageCalc),
      (getSystemRecommendations data s).systemType
        = (systemTier (JSNum.fin s.totalHarvestable)).1 ∧
      (getSystemRecommendations data s).components
        = (systemTier (JSNum.fin s.totalHarvestable)).2 ∧
      ((getSystemRecommendations data s).systemType = "Basic Rooftop Harvesting"
        ↔ s.totalHarvestable < 50000) ∧
      ((getSystemRecommendations data s).systemType = "Intermediate RWH System"
        ↔ 50000 ≤ s.totalHarvestable ∧ s.totalHarvestable < 150000) ∧
      ((getSystemRecommendations data s).systemType = "Advanced RWH System"
        ↔ 150000 ≤ s.totalHarvestable) := by
    intro data s
    have h := systemTier_fin s.totalHarvestable
    exact ⟨rfl, rfl, h.1, h.2.1, h.2.2.1⟩
  refine ⟨?_, fin_case, rfl, rfl, rfl, scenarioC_total, ?_⟩
  · intro t
    cases t with
    | fin q =>
      have h := systemTier_fin q
      simp only [JSNum.lt, JSNum.le, decide_eq_true_eq]
      refine ⟨h.1, h.2.1, ?_, ?_, ?_, ?_⟩
      · rw [h.2.2.1]; simp
      · intro hb; exact h.2.2.2.1 (h.1.mp hb)
      · intro hb; exact h.2.2.2.2.1 (h.2.1.mp hb).1 (h.2.1.mp hb).2
      · intro hb; exact h.2.2.2.2.2 (h.2.2.1.mp hb)
    | posInf => simp [systemTier, JSNum.lt, JSNum.le, n2.symm, n3.symm]
    | negInf => simp [systemTier, JSNum.lt, JSNum.le, n1, n2]
    | nan => simp [systemTier, JSNum.lt, JSNum.le, n2.symm, n3.symm]
  · rw [(fin_case _ _).2.2.1, scenarioC_total]
    norm_num

theorem getRunoffCoefficient_bounds (soilType : String) :
    0.35 ≤ getRunoffCoefficient soilType ∧ getRunoffCoefficient soilType ≤ 0.75 := by
  unfold getRunoffCoefficient lookupOr coefficients
  simp only [List.lookup]
  cases (soilType == "clay") <;> cases (soilType == "sandy") <;> cases (soilType == "loamy")
    <;> cases (soilType == "rocky") <;> cases (soilType == "mixed") <;> norm_num

theorem calculateSystemEfficiency_fin (data : SiteData) (s : StorageCalc)
    (h : s.totalHarvestable ≠ 0) :
    calculateSystemEfficiency data s =
      JSNum.fin (mathRound ((s.roofRunoffCoeff + s.openSpaceRunoffCoeff) / 2
        * min (s.recommendedStorage / s.totalHarvestable) 0.8 * 0.85 * 100)) := by
  simp [calculateSystemEfficiency, JSNum.div, JSNum.min, JSNum.mul, JSNum.round, h]

theorem scenarioA_total :
    (calculateWaterStorage scenarioASite mockRainfallData).totalHarvestable = 134375 := by
  simp [scenarioASite, mockRainfallData, calculateWaterStorage, getRunoffCoefficient_loamy,
    mathRound]
  norm_num [Int.floor_eq_iff]

theorem dryYear_total :
    (calculateWaterStorage scenarioASite dryYear).totalHarvestable = 0 := by
  simp [scenarioASite, dryYear, calculateWaterStorage, mathRound]
  norm_num [Int.floor_eq_iff]

/-- C9 fails as stated: the scenario A site is valid and a year without rain
has `currentYear = 0`, but then `totalHarvestable = 0` and
`recommendedStorage = 0`, the storage efficiency is `0 / 0`, and the efficiency
returned by `getSystemRecommendations` is `NaN`. -/
theorem efficiency_nan_dryYear :
    0 < scenarioASite.roofArea ∧ 0 ≤ scenarioASite.openSpace ∧ 0 ≤ dryYear.currentYear ∧
    (getSystemRecommendations scenarioASite
      (calculateWaterStorage scenarioASite dryYear)).efficiency = JSNum.nan := by
  refine ⟨by norm_num [scenarioASite], by norm_num [scenarioASite], by norm_num [dryYear], ?_⟩
  show calculateSystemEfficiency scenarioASite (calculateWaterStorage scenarioASite dryYear) = _
  simp [calculateSystemEfficiency, dryYear_total, dryYear_storage, JSNum.div, JSNum.signedInf,
    JSNum.min, JSNum.mul, JSNum.round]

/-- C9, amended: for a valid site and a non-negative rainfall whose storage
estimate has `totalHarvestable > 0`, the efficiency that
`getSystemRecommendations` computes from the output of `calculateWaterStorage`
is a finite integer `e` with `0 ≤ e ≤ 100`. -/
theorem efficiency_bounds (data : SiteData) (rainfallData : RainfallData)
    (_hr : 0 < data.roofArea) (_ho : 0 ≤ data.openSpace) (_hy : 0 ≤ rainfallData.currentYear)
    (ht : 0 < (calculateWaterStorage data rainfallData).totalHarvestable) :
    ∃ e : ℤ,
      (getSystemRecommendations data (calculateWaterStorage data rainfallData)).efficiency
        = JSNum.fin e ∧ 0 ≤ e ∧ e ≤ 100 := by
  have hfin := calculateSystemEfficiency_fin data (calculateWaterStorage data rainfallData) ht.ne'
  refine ⟨_, hfin, ?_, ?_⟩
  all_goals
    obtain ⟨cl, cu⟩ := getRunoffCoefficient_bounds data.soilType
    set T : ℚ := data.roofArea * rainfallData.currentYear * 0.85
      + data.openSpace * rainfallData.currentYear * getRunoffCoefficient data.soilType with hT
    have hR : (calculateWaterStorage data rainfallData).totalHarvestable = mathRound T := rfl
    have hS : (calculateWaterStorage data rainfallData).recommendedStorage
        = mathRound (min (T * 0.6) 50000) := rfl
    have hc1 : (calculateWaterStorage data rainfallData).roofRunoffCoeff = 0.85 := rfl
    have hc2 : (calculateWaterStorage data rainfallData).openSpaceRunoffCoeff
        = getRunoffCoefficient data.soilType := rfl
    rw [hR] at ht
    clear_value T
    have hTpos : 0 ≤ T := by
      have h1 := mathRound_le T
      have h2 : (1 : ℤ) ≤ mathRound T := by
        have : (0 : ℤ) < mathRound T := by exact_mod_cast ht
        omega
      have h3 : (1 : ℚ) ≤ (mathRound T : ℤ) := by exact_mod_cast h2
      linarith
    have hSnn : (0 : ℚ) ≤ (mathRound (min (T * 0.6) 50000) : ℤ) := by
      have : (0 : ℤ) ≤ mathRound (min (T * 0.6) 50000) :=
        mathRound_nonneg (le_min (by positivity) (by norm_num))
      exact_mod_cast this
    rw [hR, hS, hc1, hc2]
    have hm0 : 0 ≤ min (((mathRound (min (T * 0.6) 50000) : ℤ) : ℚ) / ((mathRound T : ℤ) : ℚ)) 0.8 :=
      le_min (div_nonneg hSnn ht.le) (by norm_num)
    have hm1 : min (((mathRound (min (T * 0.6) 50000) : ℤ) : ℚ) / ((mathRound T : ℤ) : ℚ)) 0.8
        ≤ 0.8 := min_le_right _ _
    generalize min (((mathRound (min (T * 0.6) 50000) : ℤ) : ℚ) / ((mathRound T : ℤ) : ℚ)) 0.8
      = m at hm0 hm1
    generalize getRunoffCoefficient data.soilType = c at cl cu
    rw [show (0.8 : ℚ) = 4 / 5 by norm_num] at hm1
    rw [show (0.35 : ℚ) = 7 / 20 by norm_num] at cl
    rw [show (0.75 : ℚ) = 3 / 4 by norm_num] at cu
    have hp0 : 0 ≤ (0.85 + c) / 2 * m * 0.85 * 100 := by
      have : 0 ≤ (0.85 + c) / 2 := by norm_num; linarith
      positivity
    have hp1 : (0.85 + c) / 2 * m * 0.85 * 100 ≤ 99 := by
      have h1 : (0.85 + c) / 2 ≤ 4 / 5 := by norm_num; linarith
      have h0 : 0 ≤ (0.85 + c) / 2 := by norm_num; linarith
      have h2 : (0.85 + c) / 2 * m ≤ 4 / 5 * (4 / 5) := mul_le_mul h1 hm1 hm0 (by norm_num)
      norm_num at h2 ⊢
      linarith
  · exact mathRound_nonneg hp0
  · have := mathRound_mono hp1
    rw [show ((99 : ℚ)) = ((99 : ℤ) : ℚ) by norm_num, mathRound_intCast] at this
    omega

/-- C9, amended, at scenario A: the hypotheses hold and the efficiency is a
finite integer between 0 and 100. -/
theorem efficiency_bounds_scenarioA :
    (0 < scenarioASite.roofArea ∧ 0 ≤ scenarioASite.openSpace
      ∧ 0 ≤ mockRainfallData.currentYear
      ∧ 0 < (calculateWaterStorage scenarioASite mockRainfallData).totalHarvestable) ∧
    ∃ e : ℤ,
      (getSystemRecommendations scenarioASite
        (calculateWaterStorage scenarioASite mockRainfallData)).efficiency = JSNum.fin e
      ∧ 0 ≤ e ∧ e ≤ 100 := by
  have h0 : 0 < scenarioASite.roofArea ∧ 0 ≤ scenarioASite.openSpace
      ∧ 0 ≤ mockRainfallData.currentYear := by
    norm_num [scenarioASite, mockRainfallData]
  have ht : 0 < (calculateWaterStorage scenarioASite mockRainfallData).totalHarvestable := by
    rw [scenarioA_total]; norm_num
  exact ⟨⟨h0.1, h0.2.1, h0.2.2, ht⟩,
    efficiency_bounds scenarioASite mockRainfallData h0.1 h0.2.1 h0.2.2 ht⟩

/-! ## Soil recommendations -/

theorem sixtyRoof_storage :
    (calculateWaterStorage sixtySquareMetreRoof oneMillimetreYear).recommendedStorage = 31 := by
  simp [sixtySquareMetreRoof, oneMillimetreYear, calculateWaterStorage, mathRound]
  norm_num [Int.floor_eq_iff]

/-- C10 fails as stated: the 60 m² roof under 1 mm of rain has
`recommendedStorage = 31`, a non-negative integer, and `getSoilRecommendations`
returns `requiredPitVolume = 37`, not `1.2 * 31 = 37.2`, and
`excavationVolume = 56`, not `1.5 * 37 = 55.5`. -/
theorem pitVolume_not_exact :
    (calculateWaterStorage sixtySquareMetreRoof oneMillimetreYear).recommendedStorage
      = ((31 : ℕ) : ℚ) ∧
    (getSoilRecommendations sampleMath "loamy"
      (calculateWaterStorage sixtySquareMetreRoof oneMillimetreYear)).requiredPitVolume = 37 ∧
    (getSoilRecommendations sampleMath "loamy"
      (calculateWaterStorage sixtySquareMetreRoof oneMillimetreYear)).excavationVolume = 56 ∧
    ((getSoilRecommendations sampleMath "loamy"
      (calculateWaterStorage sixtySquareMetreRoof oneMillimetreYear)).requiredPitVolume : ℚ)
      ≠ 1.2 * (calculateWaterStorage sixtySquareMetreRoof oneMillimetreYear).recommendedStorage ∧
    ((getSoilRecommendations sampleMath "loamy"
      (calculateWaterStorage sixtySquareMetreRoof oneMillimetreYear)).excavationVolume : ℚ)
      ≠ 1.5 * (getSoilRecommendations sampleMath "loamy"
        (calculateWaterStorage sixtySquareMetreRoof oneMillimetreYear)).requiredPitVolume := by
  have e1 : (getSoilRecommendations sampleMath "loamy"
      (calculateWaterStorage sixtySquareMetreRoof oneMillimetreYear)).requiredPitVolume = 37 := by
    show mathRound (_ * 1.2) = 37
    rw [sixtyRoof_storage]
    norm_num [mathRound, Int.floor_eq_iff]
  have e2 : (getSoilRecommendations sampleMath "loamy"
      (calculateWaterStorage sixtySquareMetreRoof oneMillimetreYear)).excavationVolume = 56 := by
    show mathRound (_ * 1.2 * 1.5) = 56
    rw [sixtyRoof_storage]
    norm_num [mathRound, Int.floor_eq_iff]
  refine ⟨by rw [sixtyRoof_storage]; norm_num, e1, e2, ?_, ?_⟩
  · rw [e1, sixtyRoof_storage]; norm_num
  · rw [e1, e2]; norm_num

/-- C10, amended: for a storage estimate whose `recommendedStorage` is a
non-negative integer `S`, `requiredPitVolume` is the nearest integer to `1.2 * S`
and `excavationVolume` is the nearest integer to `1.8 * S` (1.5 times the
unrounded pit volume), halves rounded up; when `S` is a multiple of 5 both
stated equalities hold exactly: `requiredPitVolume = 1.2 * S` and
`excavationVolume = 1.5 * requiredPitVolume`. -/
theorem pitVolume_rounded (M : JSMath) (soilType : String) (s : StorageCalc) (k : ℕ)
    (hk : s.recommendedStorage = k) :
    IsNearestHalfUp (1.2 * s.recommendedStorage)
      (getSoilRecommendations M soilType s).requiredPitVolume ∧
    IsNearestHalfUp (1.8 * s.recommendedStorage)
      (getSoilRecommendations M soilType s).excavationVolume ∧
    (5 ∣ k →
      ((getSoilRecommendations M soilType s).requiredPitVolume : ℚ)
        = 1.2 * s.recommendedStorage ∧
      ((getSoilRecommendations M soilType s).excavationVolume : ℚ)
        = 1.5 * (getSoilRecommendations M soilType s).requiredPitVolume) := by
  have e1 : (getSoilRecommendations M soilType s).requiredPitVolume
      = mathRound (s.recommendedStorage * 1.2) := rfl
  have e2 : (getSoilRecommendations M soilType s).excavationVolume
      = mathRound (s.recommendedStorage * 1.2 * 1.5) := rfl
  rw [e1, e2]
  have c1 : s.recommendedStorage * 1.2 = 1.2 * s.recommendedStorage := mul_comm _ _
  have c2 : s.recommendedStorage * 1.2 * 1.5 = 1.8 * s.recommendedStorage := by
    norm_num; ring
  rw [c2, c1]
  refine ⟨mathRound_isNearest _, mathRound_isNearest _, ?_⟩
  rintro ⟨j, rfl⟩
  have p1 : (1.2 : ℚ) * s.recommendedStorage = ((6 * j : ℤ) : ℚ) := by
    rw [hk]; push_cast; norm_num; ring
  have p2 : (1.8 : ℚ) * s.recommendedStorage = ((9 * j : ℤ) : ℚ) := by
    rw [hk]; push_cast; norm_num; ring
  rw [p2, mathRound_intCast, p1, mathRound_intCast]
  refine ⟨rfl, ?_⟩
  push_cast; norm_num; ring

/-- C10, amended, at scenario A: the storage is 50000 litres, a multiple of 5,
and the pit volume is 60000 and the excavation volume 90000. -/
theorem pitVolume_rounded_scenarioA :
    (calculateWaterStorage scenarioASite mockRainfallData).recommendedStorage
      = ((50000 : ℕ) : ℚ) ∧
    ((getSoilRecommendations sampleMath "loamy"
      (calculateWaterStorage scenarioASite mockRainfallData)).requiredPitVolume : ℚ)
      = 1.2 * (calculateWaterStorage scenarioASite mockRainfallData).recommendedStorage ∧
    ((getSoilRecommendations sampleMath "loamy"
      (calculateWaterStorage scenarioASite mockRainfallData)).excavationVolume : ℚ)
      = 1.5 * (getSoilRecommendations sampleMath "loamy"
        (calculateWaterStorage scenarioASite mockRainfallData)).requiredPitVolume := by
  have hk : (calculateWaterStorage scenarioASite mockRainfallData).recommendedStorage
      = ((50000 : ℕ) : ℚ) := by
    rw [scenarioA_storage.1]; norm_num
  exact ⟨hk, (pitVolume_rounded sampleMath "loamy"
    (calculateWaterStorage scenarioASite mockRainfallData) 50000 hk).2.2 (by norm_num)⟩

/-! ## Soil-type lookups -/

theorem lookup_unknown {α : Type} (a b c d e : α) (s : String)
    (h1 : s ≠ "clay") (h2 : s ≠ "sandy") (h3 : s ≠ "loamy") (h4 : s ≠ "rocky")
    (h5 : s ≠ "mixed") :
    List.lookup s [("clay", a), ("sandy", b), ("loamy", c), ("rocky", d), ("mixed", e)]
      = none := by
  have b1 : (s == "clay") = false := beq_eq_false_iff_ne.mpr h1
  have b2 : (s == "sandy") = false := beq_eq_false_iff_ne.mpr h2
  have b3 : (s == "loamy") = false := beq_eq_false_iff_ne.mpr h3
  have b4 : (s == "rocky") = false := beq_eq_false_iff_ne.mpr h4
  have b5 : (s == "mixed") = false := beq_eq_false_iff_ne.mpr h5
  simp only [List.lookup, b1, b2, b3, b4, b5]

theorem memberOr_unknown {α : Type} (falsy : α → Bool) (a b c d e dflt : α) (s : String)
    (h1 : s ≠ "clay") (h2 : s ≠ "sandy") (h3 : s ≠ "loamy") (h4 : s ≠ "rocky")
    (h5 : s ≠ "mixed") (hp : s ∉ objectPrototypeKeys) :
    memberOr falsy [("clay", a), ("sandy", b), ("loamy", c), ("rocky", d), ("mixed", e)] s dflt
      = Member.value dflt := by
  unfold memberOr
  rw [lookup_unknown a b c d e s h1 h2 h3 h4 h5]
  simp only [if_neg hp]

theorem memberOr_inherited {α : Type} (falsy : α → Bool) (a b c d e dflt : α) (s : String)
    (h1 : s ≠ "clay") (h2 : s ≠ "sandy") (h3 : s ≠ "loamy") (h4 : s ≠ "rocky")
    (h5 : s ≠ "mixed") (hp : s ∈ objectPrototypeKeys) :
    memberOr falsy [("clay", a), ("sandy", b), ("loamy", c), ("rocky", d), ("mixed", e)] s dflt
      = Member.inherited s := by
  unfold memberOr
  rw [lookup_unknown a b c d e s h1 h2 h3 h4 h5]
  simp only [if_pos hp]

theorem memberOr_eq_lookupOr (table : List (String × ℚ)) (s : String) (dflt : ℚ)
    (hp : s ∉ objectPrototypeKeys) :
    memberOr falsyNumber table s dflt = Member.value (lookupOr table s dflt) := by
  unfold memberOr lookupOr falsyNumber
  cases List.lookup s table with
  | none => simp only [if_neg hp]
  | some v =>
    by_cases hv : v = 0
    · simp [hv]
    · simp [hv]

theorem getRunoffCoefficient_sandy : getRunoffCoefficient "sandy" = 0.35 := by
  simp [getRunoffCoefficient, lookupOr, coefficients, List.lookup]
  norm_num

/-- C11 fails as stated: `"constructor"` is none of the five soil types, but
every object literal inherits a member of that name, so
`coefficients["constructor"] || 0.45` is that inherited member and not 0.45; in
arithmetic it is `NaN`. -/
theorem getRunoffCoefficient_inherited_key :
    (("constructor" : String) ≠ "clay" ∧ ("constructor" : String) ≠ "sandy" ∧
      ("constructor" : String) ≠ "loamy" ∧ ("constructor" : String) ≠ "rocky" ∧
      ("constructor" : String) ≠ "mixed") ∧
    getRunoffCoefficientMember "constructor" = Member.inherited "constructor" ∧
    getRunoffCoefficientMember "constructor" ≠ Member.value 0.45 ∧
    (getRunoffCoefficientMember "constructor").toNumber = JSNum.nan := by
  have h : getRunoffCoefficientMember "constructor" = Member.inherited "constructor" :=
    memberOr_inherited _ _ _ _ _ _ _ "constructor"
      (by decide) (by decide) (by decide) (by decide) (by decide) (by decide)
  refine ⟨⟨by decide, by decide, by decide, by decide, by decide⟩, h, ?_, ?_⟩
  · rw [h]; intro hc; cases hc
  · rw [h]; rfl

/-- C11, amended: `getRunoffCoefficient` returns 0.65 for clay, 0.35 for sandy,
0.45 for loamy, 0.75 for rocky, 0.50 for mixed, and 0.45 for every other soil
type that is not a property name inherited from `Object.prototype`;
`calculateWaterStorage` uses the returned value as `openSpaceRunoffCoeff`;
scenario B (sandy soil) gives the coefficient 0.35, an open-space harvest of
21875 and a total of 128125. -/
theorem getRunoffCoefficient_table :
    getRunoffCoefficientMember "clay" = Member.value 0.65 ∧
    getRunoffCoefficientMember "sandy" = Member.value 0.35 ∧
    getRunoffCoefficientMember "loamy" = Member.value 0.45 ∧
    getRunoffCoefficientMember "rocky" = Member.value 0.75 ∧
    getRunoffCoefficientMember "mixed" = Member.value 0.50 ∧
    (∀ s : String, s ≠ "clay" → s ≠ "sandy" → s ≠ "loamy" → s ≠ "rocky" → s ≠ "mixed" →
      s ∉ objectPrototypeKeys → getRunoffCoefficientMember s = Member.value 0.45) ∧
    (∀ (data : SiteData) (rainfallData : RainfallData), data.soilType ∉ objectPrototypeKeys →
      getRunoffCoefficientMember data.soilType
        = Member.value (calculateWaterStorage data rainfallData).openSpaceRunoffCoeff) ∧
    (calculateWaterStorage scenarioBSite mockRainfallData).openSpaceRunoffCoeff = 0.35 ∧
    (calculateWaterStorage scenarioBSite mockRainfallData).openSpaceHarvest = 21875 ∧
    (calculateWaterStorage scenarioBSite mockRainfallData).totalHarvestable = 128125 := by
  have own : ∀ s : String, s ∉ objectPrototypeKeys →
      getRunoffCoefficientMember s = Member.value (getRunoffCoefficient s) :=
    fun s hp => memberOr_eq_lookupOr coefficients s 0.45 hp
  refine ⟨?_, ?_, ?_, ?_, ?_, ?_, fun data _ hp => own data.soilType hp,
    getRunoffCoefficient_sandy, ?_, ?_⟩
  · rw [own "clay" (by decide)]
    simp [getRunoffCoefficient, lookupOr, coefficients, List.lookup]
    norm_num
  · rw [own "sandy" (by decide), getRunoffCoefficient_sandy]
  · rw [own "loamy" (by decide), getRunoffCoefficient_loamy]
  · rw [own "rocky" (by decide)]
    simp [getRunoffCoefficient, lookupOr, coefficients, List.lookup]
    norm_num
  · rw [own "mixed" (by decide)]
    simp [getRunoffCoefficient, lookupOr, coefficients, List.lookup]
    norm_num
  · intro s h1 h2 h3 h4 h5 hp
    exact memberOr_unknown _ _ _ _ _ _ _ s h1 h2 h3 h4 h5 hp
  · simp [scenarioBSite, mockRainfallData, calculateWaterStorage, getRunoffCoefficient_sandy,
      mathRound]
    norm_num [Int.floor_eq_iff]
  · simp [scenarioBSite, mockRainfallData, calculateWaterStorage, getRunoffCoefficient_sandy,
      mathRound]
    norm_num [Int.floor_eq_iff]

/-- C11, amended, at a soil type outside the table that is not an inherited
property name: `"gravel"` gets the default 0.45. -/
theorem getRunoffCoefficient_table_gravel :
    gravelSite.soilType ≠ "clay" ∧ gravelSite.soilType ≠ "sandy" ∧
    gravelSite.soilType ≠ "loamy" ∧ gravelSite.soilType ≠ "rocky" ∧
    gravelSite.soilType ≠ "mixed" ∧ gravelSite.soilType ∉ objectPrototypeKeys ∧
    getRunoffCoefficientMember gravelSite.soilType = Member.value 0.45 :=
  ⟨by decide, by decide, by decide, by decide, by decide, by decide,
   getRunoffCoefficient_table.2.2.2.2.2.1 gravelSite.soilType
    (by decide) (by decide) (by decide) (by decide) (by decide) (by decide)⟩

theorem soilRec_mixed :
    memberOr (fun _ => false) soilRecommendationTable "mixed" mixedSoilRec
      = Member.value mixedSoilRec := by
  simp [memberOr, soilRecommendationTable, List.lookup]

theorem soilRec_unknown (s : String)
    (h1 : s ≠ "clay") (h2 : s ≠ "sandy") (h3 : s ≠ "loamy") (h4 : s ≠ "rocky")
    (h5 : s ≠ "mixed") (hp : s ∉ objectPrototypeKeys) :
    memberOr (fun _ => false) soilRecommendationTable s mixedSoilRec
      = Member.value mixedSoilRec := by
  unfold soilRecommendationTable
  exact memberOr_unknown _ _ _ _ _ _ _ s h1 h2 h3 h4 h5 hp

theorem soilRec_constructor :
    memberOr (fun _ => false) soilRecommendationTable "constructor" mixedSoilRec
      = Member.inherited "constructor" := by
  unfold soilRecommendationTable
  exact memberOr_inherited _ _ _ _ _ _ _ "constructor"
    (by decide) (by decide) (by decide) (by decide) (by decide) (by decide)

theorem parseInt_undefined : parseInt "undefined" = JSNum.nan := by
  simp [parseInt]

/-- C12 fails as stated: `"constructor"` is none of the five soil types, but
`recommendations["constructor"]` is the member every object inherits, which is
truthy, so the mixed entry is not used: the spread fields such as `suitability`
and `depth` are `undefined`, where the mixed result has `"Good"` and
`"3-4 meters"`, and `requiredPitDiameter` is `NaN`. -/
theorem getSoilRecommendations_inherited_key :
    (("constructor" : String) ≠ "clay" ∧ ("constructor" : String) ≠ "sandy" ∧
      ("constructor" : String) ≠ "loamy" ∧ ("constructor" : String) ≠ "rocky" ∧
      ("constructor" : String) ≠ "mixed") ∧
    (getSoilRecommendations sampleMath "constructor"
      (calculateWaterStorage scenarioASite mockRainfallData)).suitability = none ∧
    (getSoilRecommendations sampleMath "mixed"
      (calculateWaterStorage scenarioASite mockRainfallData)).suitability = some "Good" ∧
    (getSoilRecommendations sampleMath "constructor"
      (calculateWaterStorage scenarioASite mockRainfallData)).depth = none ∧
    (getSoilRecommendations sampleMath "mixed"
      (calculateWaterStorage scenarioASite mockRainfallData)).depth = some "3-4 meters" ∧
    (getSoilRecommendations sampleMath "constructor"
      (calculateWaterStorage scenarioASite mockRainfallData)).requiredPitDiameter
        = JSNum.nan := by
  refine ⟨⟨by decide, by decide, by decide, by decide, by decide⟩, ?_, ?_, ?_, ?_, ?_⟩
  · simp only [getSoilRecommendations, soilRec_constructor, Member.field]
  · simp only [getSoilRecommendations, soilRec_mixed, Member.field]
    rfl
  · simp only [getSoilRecommendations, soilRec_constructor, Member.field]
  · simp only [getSoilRecommendations, soilRec_mixed, Member.field]
    rfl
  · simp only [getSoilRecommendations, soilRec_constructor, Member.field, parseIntOf,
      parseInt_undefined]
    simp [JSNum.mul, JSNum.div, JSMath.sqrtNum, JSNum.round]

/-- C12, amended: for a soil type `s` that is none of clay, sandy, loamy, rocky
and mixed and is not a property name inherited from `Object.prototype`,
`getSoilRecommendations s` returns the same suitability, infiltration rate,
recommendations, pit type, depth, lining flag, pit diameter, pit volume and
excavation volume as `getSoilRecommendations "mixed"` on the same storage
estimate; the echoed `soilType` is `s`. -/
theorem getSoilRecommendations_unknown (M : JSMath) (s : String) (storageCalc : StorageCalc)
    (h1 : s ≠ "clay") (h2 : s ≠ "sandy") (h3 : s ≠ "loamy") (h4 : s ≠ "rocky")
    (h5 : s ≠ "mixed") (hp : s ∉ objectPrototypeKeys) :
    (getSoilRecommendations M s storageCalc).suitability
      = (getSoilRecommendations M "mixed" storageCalc).suitability ∧
    (getSoilRecommendations M s storageCalc).infiltrationRate
      = (getSoilRecommendations M "mixed" storageCalc).infiltrationRate ∧
    (getSoilRecommendations M s storageCalc).recommendations
      = (getSoilRecommendations M "mixed" storageCalc).recommendations ∧
    (getSoilRecommendations M s storageCalc).pitType
      = (getSoilRecommendations M "mixed" storageCalc).pitType ∧
    (getSoilRecommendations M s storageCalc).depth
      = (getSoilRecommendations M "mixed" storageCalc).depth ∧
    (getSoilRecommendations M s storageCalc).liningRequired
      = (getSoilRecommendations M "mixed" storageCalc).liningRequired ∧
    (getSoilRecommendations M s storageCalc).requiredPitDiameter
      = (getSoilRecommendations M "mixed" storageCalc).requiredPitDiameter ∧
    (getSoilRecommendations M s storageCalc).requiredPitVolume
      = (getSoilRecommendations M "mixed" storageCalc).requiredPitVolume ∧
    (getSoilRecommendations M s storageCalc).excavationVolume
      = (getSoilRecommendations M "mixed" storageCalc).excavationVolume ∧
    (getSoilRecommendations M s storageCalc).soilType = s ∧
    (getSoilRecommendations M "mixed" storageCalc).soilType = "mixed" ∧
    (getSoilRecommendations M "mixed" storageCalc).suitability = some "Good" := by
  have hs := soilRec_unknown s h1 h2 h3 h4 h5 hp
  have hm := soilRec_mixed
  simp only [getSoilRecommendations, hs, hm, Member.field, and_self, true_and]
  rfl

/-- C12, amended, at the soil type `"gravel"`: it is outside the table and not
an inherited property name, and gets the suitability, depth and lining flag of
the mixed entry, with `soilType` echoed. -/
theorem getSoilRecommendations_unknown_gravel :
    (gravelSite.soilType ≠ "clay" ∧ gravelSite.soilType ≠ "sandy" ∧
      gravelSite.soilType ≠ "loamy" ∧ gravelSite.soilType ≠ "rocky" ∧
      gravelSite.soilType ≠ "mixed" ∧ gravelSite.soilType ∉ objectPrototypeKeys) ∧
    (getSoilRecommendations sampleMath gravelSite.soilType
      (calculateWaterStorage gravelSite mockRainfallData)).suitability
      = (getSoilRecommendations sampleMath "mixed"
          (calculateWaterStorage gravelSite mockRainfallData)).suitability ∧
    (getSoilRecommendations sampleMath gravelSite.soilType
      (calculateWaterStorage gravelSite mockRainfallData)).requiredPitDiameter
      = (getSoilRecommendations sampleMath "mixed"
          (calculateWaterStorage gravelSite mockRainfallData)).requiredPitDiameter ∧
    (getSoilRecommendations sampleMath gravelSite.soilType
      (calculateWaterStorage gravelSite mockRainfallData)).soilType = "gravel" :=
  ⟨⟨by decide, by decide, by decide, by decide, by decide, by decide⟩,
   (getSoilRecommendations_unknown sampleMath gravelSite.soilType
      (calculateWaterStorage gravelSite mockRainfallData)
      (by decide) (by decide) (by decide) (by decide) (by decide) (by decide)).1,
   (getSoilRecommendations_unknown sampleMath gravelSite.soilType
      (calculateWaterStorage gravelSite mockRainfallData)
      (by decide) (by decide) (by decide) (by decide) (by decide) (by decide)).2.2.2.2.2.2.1,
   (getSoilRecommendations_unknown sampleMath gravelSite.soilType
      (calculateWaterStorage gravelSite mockRainfallData)
      (by decide) (by decide) (by decide) (by decide) (by decide) (by decide)).2.2.2.2.2.2.2.2.2.1⟩

/-! ## Groundwater impact -/

/-- C13 fails as stated: for the soil type `"gravel"`, outside the table,
`calculateGroundwaterImpact` returns the aquifer type `"Mixed aquifer system"`
and the quality note `"Moderate quality improvement"`, while for `"mixed"` it
returns `"Complex aquifer system"` and `"Varied quality improvement"`. -/
theorem groundwaterImpact_unknown_ne_mixed :
    (gravelSite.soilType ≠ "clay" ∧ gravelSite.soilType ≠ "sandy" ∧
      gravelSite.soilType ≠ "loamy" ∧ gravelSite.soilType ≠ "rocky" ∧
      gravelSite.soilType ≠ "mixed") ∧
    (calculateGroundwaterImpact sampleMath gravelSite
      (calculateWaterStorage scenarioASite mockRainfallData)).aquiferType
      = Member.value "Mixed aquifer system" ∧
    (calculateGroundwaterImpact sampleMath mixedSite
      (calculateWaterStorage scenarioASite mockRainfallData)).aquiferType
      = Member.value "Complex aquifer system" ∧
    (calculateGroundwaterImpact sampleMath gravelSite
      (calculateWaterStorage scenarioASite mockRainfallData)).aquiferType
      ≠ (calculateGroundwaterImpact sampleMath mixedSite
          (calculateWaterStorage scenarioASite mockRainfallData)).aquiferType ∧
    (calculateGroundwaterImpact sampleMath gravelSite
      (calculateWaterStorage scenarioASite mockRainfallData)).qualityImprovement
      ≠ (calculateGroundwaterImpact sampleMath mixedSite
          (calculateWaterStorage scenarioASite mockRainfallData)).qualityImprovement := by
  refine ⟨⟨by decide, by decide, by decide, by decide, by decide⟩, ?_, ?_, ?_, ?_⟩
  · show getAquiferType "gravel" = _
    decide
  · show getAquiferType "mixed" = _
    decide
  · show getAquiferType "gravel" ≠ getAquiferType "mixed"
    decide
  · show getWaterQualityImpact "gravel" ≠ getWaterQualityImpact "mixed"
    decide

/-- C13, amended: for a soil type that is outside the table and is not a
property name inherited from `Object.prototype`, the descriptive lookups of
`calculateGroundwaterImpact` return their own default texts,
`"Mixed aquifer system"` and `"Moderate quality improvement"`, whereas the mixed
entries are `"Complex aquifer system"` and `"Varied quality improvement"`; only
the numeric `specificYield` default, 0.12, equals the mixed entry. -/
theorem groundwaterImpact_unknown_defaults (M : JSMath) (data : SiteData)
    (storageCalc : StorageCalc)
    (h1 : data.soilType ≠ "clay") (h2 : data.soilType ≠ "sandy")
    (h3 : data.soilType ≠ "loamy") (h4 : data.soilType ≠ "rocky")
    (h5 : data.soilType ≠ "mixed") (hp : data.soilType ∉ objectPrototypeKeys) :
    (calculateGroundwaterImpact M data storageCalc).aquiferType
      = Member.value "Mixed aquifer system" ∧
    (calculateGroundwaterImpact M data storageCalc).qualityImprovement
      = Member.value "Moderate quality improvement" ∧
    (calculateGroundwaterImpact M ⟨data.roofArea, data.openSpace, "mixed"⟩
      storageCalc).aquiferType = Member.value "Complex aquifer system" ∧
    (calculateGroundwaterImpact M ⟨data.roofArea, data.openSpace, "mixed"⟩
      storageCalc).qualityImprovement = Member.value "Varied quality improvement" ∧
    (calculateGroundwaterImpact M data storageCalc).specificYield = Member.value 0.12 ∧
    (calculateGroundwaterImpact M ⟨data.roofArea, data.openSpace, "mixed"⟩
      storageCalc).specificYield = Member.value 0.12 := by
  refine ⟨?_, ?_, ?_, ?_, ?_, ?_⟩
  · exact memberOr_unknown _ _ _ _ _ _ _ data.soilType h1 h2 h3 h4 h5 hp
  · exact memberOr_unknown _ _ _ _ _ _ _ data.soilType h1 h2 h3 h4 h5 hp
  · show getAquiferType "mixed" = _
    decide
  · show getWaterQualityImpact "mixed" = _
    decide
  · exact memberOr_unknown _ _ _ _ _ _ _ data.soilType h1 h2 h3 h4 h5 hp
  · show getSpecificYield "mixed" = _
    simp [getSpecificYield, memberOr, specificYields, List.lookup, falsyNumber]

/-- C13, amended, at the soil type `"gravel"`, which is neither a table key nor
an inherited property name. -/
theorem groundwaterImpact_unknown_defaults_gravel :
    (gravelSite.soilType ≠ "clay" ∧ gravelSite.soilType ≠ "sandy" ∧
      gravelSite.soilType ≠ "loamy" ∧ gravelSite.soilType ≠ "rocky" ∧
      gravelSite.soilType ≠ "mixed" ∧ gravelSite.soilType ∉ objectPrototypeKeys) ∧
    (calculateGroundwaterImpact sampleMath gravelSite
      (calculateWaterStorage gravelSite mockRainfallData)).aquiferType
      = Member.value "Mixed aquifer system" :=
  ⟨⟨by decide, by decide, by decide, by decide, by decide, by decide⟩,
   (groundwaterImpact_unknown_defaults sampleMath gravelSite
      (calculateWaterStorage gravelSite mockRainfallData)
      (by decide) (by decide) (by decide) (by decide) (by decide) (by decide)).1⟩

theorem estimatedLevelRise_eq (M : JSMath) (data : SiteData) (s : StorageCalc) :
    (calculateGroundwaterImpact M data s).estimatedLevelRise =
      JSNum.div (JSNum.round (JSNum.mul
        (JSNum.div (JSNum.fin (s.totalHarvestable * 0.4 / 1000))
          (JSNum.mul (JSNum.fin (data.roofArea + data.openSpace))
            (getSpecificYield data.soilType).toNumber))
        (JSNum.fin 100))) (JSNum.fin 100) := rfl

theorem rechargeRate_eq (M : JSMath) (data : SiteData) (s : StorageCalc) :
    (calculateGroundwaterImpact M data s).rechargeRate =
      JSNum.round (JSNum.mul
        (JSNum.div (JSNum.fin (s.totalHarvestable * 0.4)) (JSNum.fin s.totalHarvestable))
        (JSNum.fin 100)) := rfl

/-- C14 fails as stated: for the scenario A site in a year without rain the
storage estimate has `totalHarvestable = 0` and `calculateGroundwaterImpact`
computes `rechargeRate` from `0 / 0`: it is `NaN`. -/
theorem rechargeRate_nan_dryYear :
    (calculateWaterStorage scenarioASite dryYear).totalHarvestable = 0 ∧
    (calculateGroundwaterImpact sampleMath scenarioASite
      (calculateWaterStorage scenarioASite dryYear)).rechargeRate = JSNum.nan ∧
    (calculateGroundwaterImpact sampleMath scenarioASite
      (calculateWaterStorage scenarioASite dryYear)).rechargeRate.isFinite = false := by
  have h : (calculateGroundwaterImpact sampleMath scenarioASite
      (calculateWaterStorage scenarioASite dryYear)).rechargeRate = JSNum.nan := by
    rw [rechargeRate_eq, dryYear_total]
    simp [JSNum.div, JSNum.signedInf, JSNum.mul, JSNum.round]
  refine ⟨dryYear_total, h, ?_⟩
  rw [h]; rfl

/-- C14, amended: `calculateGroundwaterImpact` divides without a guard.  For
every input with `totalHarvestable = 0`, `rechargeRate` is `NaN`; for every
input with `roofArea + openSpace = 0`, `estimatedLevelRise` is not finite; so
whenever either divisor is zero the two values are not both finite. -/
theorem groundwaterImpact_zero_divisors (M : JSMath) (data : SiteData) (s : StorageCalc)
    (h : data.roofArea + data.openSpace = 0 ∨ s.totalHarvestable = 0) :
    ((calculateGroundwaterImpact M data s).estimatedLevelRise.isFinite
      && (calculateGroundwaterImpact M data s).rechargeRate.isFinite) = false ∧
    (s.totalHarvestable = 0 → (calculateGroundwaterImpact M data s).rechargeRate = JSNum.nan) ∧
    (data.roofArea + data.openSpace = 0 →
      (calculateGroundwaterImpact M data s).estimatedLevelRise.isFinite = false) := by
  have hrate : s.totalHarvestable = 0 →
      (calculateGroundwaterImpact M data s).rechargeRate = JSNum.nan := by
    intro h0
    rw [rechargeRate_eq, h0]
    simp [JSNum.div, JSNum.signedInf, JSNum.mul, JSNum.round]
  have hrise : data.roofArea + data.openSpace = 0 →
      (calculateGroundwaterImpact M data s).estimatedLevelRise.isFinite = false := by
    intro h0
    rw [estimatedLevelRise_eq, h0]
    cases hy : getSpecificYield data.soilType with
    | value q =>
      have hq : JSNum.div (JSNum.fin (s.totalHarvestable * 0.4 / 1000))
          (JSNum.mul (JSNum.fin 0) (Member.value q).toNumber)
          = JSNum.signedInf (s.totalHarvestable * 0.4 / 1000) := by
        simp [JSNum.div, JSNum.mul, Member.toNumber]
      rw [hq, roundTo_signedInf _ 100 (by norm_num)]
      exact signedInf_isFinite _
    | inherited k =>
      simp [Member.toNumber, JSNum.mul, JSNum.div, JSNum.round, JSNum.isFinite]
  refine ⟨?_, hrate, hrise⟩
  rcases h with h0 | h0
  · rw [hrise h0]; rfl
  · rw [hrate h0]; simp [JSNum.isFinite]

/-- C14, amended, at the scenario A site in a year without rain:
`totalHarvestable = 0` and the two values are not both finite. -/
theorem groundwaterImpact_zero_divisors_dryYear :
    (scenarioASite.roofArea + scenarioASite.openSpace = 0
      ∨ (calculateWaterStorage scenarioASite dryYear).totalHarvestable = 0) ∧
    ((calculateGroundwaterImpact sampleMath scenarioASite
        (calculateWaterStorage scenarioASite dryYear)).estimatedLevelRise.isFinite
      && (calculateGroundwaterImpact sampleMath scenarioASite
        (calculateWaterStorage scenarioASite dryYear)).rechargeRate.isFinite) = false :=
  ⟨Or.inr dryYear_total,
   (groundwaterImpact_zero_divisors sampleMath scenarioASite
      (calculateWaterStorage scenarioASite dryYear) (Or.inr dryYear_total)).1⟩

/-! ## Cost breakdown and maintenance -/

/-- C15: the breakdown returned by `calculateCostEstimation` for a storage `S`
is: excavation `(S / 1000) * 500`; lining `(S / 1000) * 800` for clay and rocky
soil and 0 for every other soil type; filtration 15000; piping
`roofArea * 150`; pumping 25000 when `S > 10000` and 0 when `S ≤ 10000`; first
flush 5000; storage `S * 8`; labor `(S / 1000) * 2000`; miscellaneous 10000. -/
theorem costBreakdown_formulas (data : SiteData) (s : StorageCalc) :
    (calculateCostEstimation data s).breakdown.excavation
      = (s.recommendedStorage / 1000) * 500 ∧
    (data.soilType = "clay" ∨ data.soilType = "rocky" →
      (calculateCostEstimation data s).breakdown.lining
        = (s.recommendedStorage / 1000) * 800) ∧
    (data.soilType ≠ "clay" → data.soilType ≠ "rocky" →
      (calculateCostEstimation data s).breakdown.lining = 0) ∧
    (calculateCostEstimation data s).breakdown.filtration = 15000 ∧
    (calculateCostEstimation data s).breakdown.piping = data.roofArea * 150 ∧
    (s.recommendedStorage > 10000 →
      (calculateCostEstimation data s).breakdown.pumping = 25000) ∧
    (s.recommendedStorage ≤ 10000 →
      (calculateCostEstimation data s).breakdown.pumping = 0) ∧
    (calculateCostEstimation data s).breakdown.firstFlush = 5000 ∧
    (calculateCostEstimation data s).breakdown.storage = s.recommendedStorage * 8 ∧
    (calculateCostEstimation data s).breakdown.labor
      = (s.recommendedStorage / 1000) * 2000 ∧
    (calculateCostEstimation data s).breakdown.miscellaneous = 10000 := by
  have hb : (calculateCostEstimation data s).breakdown = costBreakdown data s := rfl
  rw [hb]
  refine ⟨rfl, ?_, ?_, rfl, rfl, ?_, ?_, rfl, rfl, rfl, rfl⟩
  · intro h
    simp only [costBreakdown, if_pos h]
  · intro h1 h2
    have h : ¬ (data.soilType = "clay" ∨ data.soilType = "rocky") := by
      rintro (h | h)
      · exact h1 h
      · exact h2 h
    simp only [costBreakdown, if_neg h]
  · intro h
    simp only [costBreakdown, if_pos h]
  · intro h
    have h' : ¬ (s.recommendedStorage > 10000) := not_lt.mpr h
    simp only [costBreakdown, if_neg h']

/-- C15 at the boundary: a storage of exactly 10000 litres on loamy soil has no
pumping and no lining cost. -/
theorem costBreakdown_formulas_tenThousand :
    (scenarioASite.soilType ≠ "clay" ∧ scenarioASite.soilType ≠ "rocky"
      ∧ tenThousandLitres.recommendedStorage ≤ 10000) ∧
    (calculateCostEstimation scenarioASite tenThousandLitres).breakdown.lining = 0 ∧
    (calculateCostEstimation scenarioASite tenThousandLitres).breakdown.pumping = 0 :=
  ⟨⟨by decide, by decide, by norm_num [tenThousandLitres]⟩,
   (costBreakdown_formulas scenarioASite tenThousandLitres).2.2.1 (by decide) (by decide),
   (costBreakdown_formulas scenarioASite tenThousandLitres).2.2.2.2.2.2.1
    (by norm_num [tenThousandLitres])⟩

/-- C16: the `annualMaintenance` returned by `calculateCostEstimation` is
`3000 + 2000 + 1000` plus 1500 exactly when the pumping cost is positive, which
is exactly when `recommendedStorage > 10000`; so it is 7500 when
`recommendedStorage > 10000` and 6000 otherwise, and takes no other value. -/
theorem annualMaintenance_values (data : SiteData) (s : StorageCalc) :
    (0 < (calculateCostEstimation data s).breakdown.pumping →
      (calculateCostEstimation data s).annualMaintenance = 3000 + 2000 + 1000 + 1500) ∧
    (¬ 0 < (calculateCostEstimation data s).breakdown.pumping →
      (calculateCostEstimation data s).annualMaintenance = 3000 + 2000 + 1000) ∧
    (0 < (calculateCostEstimation data s).breakdown.pumping ↔ s.recommendedStorage > 10000) ∧
    (s.recommendedStorage > 10000 → (calculateCostEstimation data s).annualMaintenance = 7500) ∧
    (s.recommendedStorage ≤ 10000 → (calculateCostEstimation data s).annualMaintenance = 6000) ∧
    ((calculateCostEstimation data s).annualMaintenance = 7500
      ∨ (calculateCostEstimation data s).annualMaintenance = 6000) := by
  have hp : (calculateCostEstimation data s).breakdown.pumping
      = if s.recommendedStorage > 10000 then 25000 else 0 := rfl
  have hm : (calculateCostEstimation data s).annualMaintenance
      = mathRound (reduceSum (MaintenanceCost.values
          { cleaning := 3000
            filterReplacement := 2000
            pumpMaintenance :=
              if (calculateCostEstimation data s).breakdown.pumping > 0 then 1500 else 0
            inspection := 1000 })) := rfl
  have hpos : 0 < (calculateCostEstimation data s).breakdown.pumping →
      (calculateCostEstimation data s).annualMaintenance = 7500 := by
    intro h
    rw [hm]
    simp only [reduceSum, MaintenanceCost.values, List.foldl, gt_iff_lt, if_pos h]
    norm_num [mathRound, Int.floor_eq_iff]
  have hneg : ¬ 0 < (calculateCostEstimation data s).breakdown.pumping →
      (calculateCostEstimation data s).annualMaintenance = 6000 := by
    intro h
    rw [hm]
    simp only [reduceSum, MaintenanceCost.values, List.foldl, gt_iff_lt, if_neg h]
    norm_num [mathRound, Int.floor_eq_iff]
  have hiff : 0 < (calculateCostEstimation data s).breakdown.pumping
      ↔ s.recommendedStorage > 10000 := by
    rw [hp]
    by_cases h : s.recommendedStorage > 10000
    · simp [h]
    · simp [h]
  refine ⟨fun h => by rw [hpos h]; norm_num, fun h => by rw [hneg h]; norm_num, hiff,
    fun h => hpos (hiff.mpr h), fun h => hneg (fun hc => absurd (hiff.mp hc) (not_lt.mpr h)), ?_⟩
  by_cases h : 0 < (calculateCostEstimation data s).breakdown.pumping
  · exact Or.inl (hpos h)
  · exact Or.inr (hneg h)

/-- C16 at scenario A (50000 litres, maintenance 7500) and at a storage of
exactly 10000 litres (maintenance 6000). -/
theorem annualMaintenance_values_samples :
    ((calculateWaterStorage scenarioASite mockRainfallData).recommendedStorage > 10000
      ∧ tenThousandLitres.recommendedStorage ≤ 10000) ∧
    (calculateCostEstimation scenarioASite
      (calculateWaterStorage scenarioASite mockRainfallData)).annualMaintenance = 7500 ∧
    (calculateCostEstimation scenarioASite tenThousandLitres).annualMaintenance = 6000 := by
  have h1 : (calculateWaterStorage scenarioASite mockRainfallData).recommendedStorage > 10000 := by
    rw [scenarioA_storage.1]; norm_num
  have h2 : tenThousandLitres.recommendedStorage ≤ 10000 := by norm_num [tenThousandLitres]
  exact ⟨⟨h1, h2⟩,
    (annualMaintenance_values scenarioASite
      (calculateWaterStorage scenarioASite mockRainfallData)).2.2.2.1 h1,
    (annualMaintenance_values scenarioASite tenThousandLitres).2.2.2.2.1 h2⟩

/-! ## Payback below the advanced tier -/

/-- C17: for a site with non-negative areas and a non-negative rainfall whose
storage estimate has `totalHarvestable < 150000` (the Basic or Intermediate
tier), the annual savings are at most 5250 and the annual maintenance is at
least 6000, so the savings are strictly below the maintenance, and the
`paybackPeriod` returned by `calculateCostEstimation` is a finite number that is
at most -4. -/
theorem paybackPeriod_negative_below_advanced (data : SiteData) (rainfallData : RainfallData)
    (hr : 0 ≤ data.roofArea) (ho : 0 ≤ data.openSpace) (hy : 0 ≤ rainfallData.currentYear)
    (ht : (calculateWaterStorage data rainfallData).totalHarvestable < 150000) :
    (calculateWaterStorage data rainfallData).waterSavingPotential * 0.05 ≤ 5250 ∧
    (6000 : ℚ) ≤ (calculateCostEstimation data
      (calculateWaterStorage data rainfallData)).annualMaintenance ∧
    (calculateWaterStorage data rainfallData).waterSavingPotential * 0.05
      < (calculateCostEstimation data
          (calculateWaterStorage data rainfallData)).annualMaintenance ∧
    ∃ q : ℚ,
      (calculateCostEstimation data (calculateWaterStorage data rainfallData)).paybackPeriod
        = JSNum.fin q ∧ q ≤ -4 := by
  obtain ⟨cl, -⟩ := getRunoffCoefficient_bounds data.soilType
  obtain ⟨T, hT⟩ : ∃ T : ℚ, T = data.roofArea * rainfallData.currentYear * 0.85
      + data.openSpace * rainfallData.currentYear * getRunoffCoefficient data.soilType :=
    ⟨_, rfl⟩
  have hR : (calculateWaterStorage data rainfallData).totalHarvestable = mathRound T := by
    rw [hT]; rfl
  have hS : (calculateWaterStorage data rainfallData).recommendedStorage
      = mathRound (min (T * 0.6) 50000) := by
    rw [hT]; rfl
  have hW : (calculateWaterStorage data rainfallData).waterSavingPotential
      = mathRound (T * 0.7) := by
    rw [hT]; rfl
  have hT0 : 0 ≤ T := by
    rw [hT]
    have hc : 0 ≤ getRunoffCoefficient data.soilType := by
      rw [show (0.35 : ℚ) = 7 / 20 by norm_num] at cl
      linarith
    have a1 : 0 ≤ data.roofArea * rainfallData.currentYear * 0.85 := by positivity
    have a2 : 0 ≤ data.openSpace * rainfallData.currentYear
        * getRunoffCoefficient data.soilType := by positivity
    linarith
  -- the saving potential is an integer between 0 and 105000
  have hTlt : T < 149999 + 1 / 2 := by
    rw [hR] at ht
    have h1 : mathRound T < 150000 := by exact_mod_cast ht
    have h2 : mathRound T ≤ 149999 := by omega
    have h3 : ((mathRound T : ℤ) : ℚ) ≤ 149999 := by exact_mod_cast h2
    have h4 := lt_mathRound T
    linarith
  have hW0 : (0 : ℚ) ≤ (mathRound (T * 0.7) : ℤ) := by
    have : (0 : ℤ) ≤ mathRound (T * 0.7) := mathRound_nonneg (by positivity)
    exact_mod_cast this
  have hW1 : ((mathRound (T * 0.7) : ℤ) : ℚ) ≤ 105000 := by
    have h1 := mathRound_le (T * 0.7)
    rw [show (0.7 : ℚ) = 7 / 10 by norm_num] at h1 ⊢
    have h2 : ((mathRound (T * (7 / 10)) : ℤ) : ℚ) < 105001 := by linarith
    have h3 : mathRound (T * (7 / 10)) < 105001 := by exact_mod_cast h2
    have h4 : mathRound (T * (7 / 10)) ≤ 105000 := by omega
    exact_mod_cast h4
  have hS0 : 0 ≤ (calculateWaterStorage data rainfallData).recommendedStorage := by
    rw [hS]
    have : (0 : ℤ) ≤ mathRound (min (T * 0.6) 50000) :=
      mathRound_nonneg (le_min (by positivity) (by norm_num))
    exact_mod_cast this
  have hsum := costBreakdown_sum_ge data (calculateWaterStorage data rainfallData) hr hS0
  have hm := annualMaintenance_eq data (calculateWaterStorage data rainfallData)
  have hm1 : (6000 : ℚ) ≤ (calculateCostEstimation data
      (calculateWaterStorage data rainfallData)).annualMaintenance := by
    rw [hm]; split_ifs <;> norm_num
  have hm2 : ((calculateCostEstimation data
      (calculateWaterStorage data rainfallData)).annualMaintenance : ℚ) ≤ 7500 := by
    rw [hm]; split_ifs <;> norm_num
  have hsav0 : 0 ≤ (calculateWaterStorage data rainfallData).waterSavingPotential * 0.05 := by
    rw [hW]; positivity
  have hsav1 : (calculateWaterStorage data rainfallData).waterSavingPotential * 0.05 ≤ 5250 := by
    rw [hW, show (0.05 : ℚ) = 1 / 20 by norm_num]
    linarith
  refine ⟨hsav1, hm1, by linarith, ?_⟩
  rw [paybackPeriod_eq]
  generalize (calculateWaterStorage data rainfallData).waterSavingPotential * 0.05 = sav
    at hsav0 hsav1
  generalize ((calculateCostEstimation data
    (calculateWaterStorage data rainfallData)).annualMaintenance : ℚ) = m at hm1 hm2
  generalize (costBreakdown data (calculateWaterStorage data rainfallData)).sum = t at hsum
  have hd : sav - m < 0 := by linarith
  have hq : t / (sav - m) ≤ -4 := by
    rw [div_le_iff_of_neg hd]
    linarith
  have hround : mathRound (t / (sav - m) * 10) ≤ -40 := by
    have := mathRound_mono (show t / (sav - m) * 10 ≤ ((-40 : ℤ) : ℚ) by push_cast; linarith)
    rwa [mathRound_intCast] at this
  refine ⟨((mathRound (t / (sav - m) * 10) : ℤ) : ℚ) / 10, ?_, ?_⟩
  · simp [JSNum.div, JSNum.mul, JSNum.round, hd.ne]
  · have : ((mathRound (t / (sav - m) * 10) : ℤ) : ℚ) ≤ -40 := by exact_mod_cast hround
    linarith

/-- C17 at scenario A: the total is 134375, below 150000, and the payback
period is a finite number at most -4. -/
theorem paybackPeriod_negative_below_advanced_scenarioA :
    (0 ≤ scenarioASite.roofArea ∧ 0 ≤ scenarioASite.openSpace
      ∧ 0 ≤ mockRainfallData.currentYear
      ∧ (calculateWaterStorage scenarioASite mockRainfallData).totalHarvestable < 150000) ∧
    ∃ q : ℚ,
      (calculateCostEstimation scenarioASite
        (calculateWaterStorage scenarioASite mockRainfallData)).paybackPeriod = JSNum.fin q
      ∧ q ≤ -4 := by
  have h0 : 0 ≤ scenarioASite.roofArea ∧ 0 ≤ scenarioASite.openSpace
      ∧ 0 ≤ mockRainfallData.currentYear := by
    norm_num [scenarioASite, mockRainfallData]
  have ht : (calculateWaterStorage scenarioASite mockRainfallData).totalHarvestable < 150000 := by
    rw [scenarioA_total]; norm_num
  exact ⟨⟨h0.1, h0.2.1, h0.2.2, ht⟩,
    (paybackPeriod_negative_below_advanced scenarioASite mockRainfallData
      h0.1 h0.2.1 h0.2.2 ht).2.2.2⟩

/-! ## Double-precision arithmetic -/

theorem roundHalfEven_eq (y : ℚ) (m : ℤ) (h : |y - m| < 1 / 2) : roundHalfEven y = m := by
  rw [abs_lt] at h
  obtain ⟨h1, h2⟩ := h
  unfold roundHalfEven
  by_cases hm : (m : ℚ) ≤ y
  · have hf : ⌊y⌋ = m := by
      rw [Int.floor_eq_iff]; constructor <;> linarith
    rw [hf, if_pos (by linarith)]
  · have hf : ⌊y⌋ = m - 1 := by
      rw [Int.floor_eq_iff]; push_cast; constructor <;> linarith
    rw [hf]
    push_cast
    rw [if_neg (by linarith), if_pos (by linarith)]
    ring

theorem abs_roundHalfEven_sub_le (y : ℚ) : |(roundHalfEven y : ℚ) - y| ≤ 1 / 2 := by
  have h1 := Int.floor_le y
  have h2 := Int.lt_floor_add_one y
  unfold roundHalfEven
  rw [abs_le]
  split_ifs with a b c
  · constructor <;> linarith
  · push_cast; constructor <;> linarith
  · constructor <;> linarith
  · push_cast; constructor <;> linarith

theorem ulpExponent_eq (x : ℚ) (E : ℤ) (hE : -1022 ≤ E) (h1 : (2 : ℚ) ^ E ≤ |x|)
    (h2 : |x| < (2 : ℚ) ^ (E + 1)) : ulpExponent x = E - 52 := by
  have hpos : 0 < |x| := lt_of_lt_of_le (by positivity) h1
  have hl : Int.log 2 |x| = E := by
    have a := (Int.zpow_le_iff_le_log (b := 2) (by norm_num) hpos (x := E)).mp (by exact_mod_cast h1)
    have b := (Int.lt_zpow_iff_log_lt (b := 2) (by norm_num) hpos (x := E + 1)).mp
      (by exact_mod_cast h2)
    omega
  unfold ulpExponent
  rw [hl, max_eq_left hE]

theorem toF64_eq (x : ℚ) (e m : ℤ) (he : -1074 ≤ e) (h1 : (2 : ℚ) ^ (e + 52) ≤ |x|)
    (h2 : |x| < (2 : ℚ) ^ (e + 53)) (hm : |x / 2 ^ e - m| < 1 / 2) :
    toF64 x = m * 2 ^ e := by
  have hu : ulpExponent x = e := by
    have := ulpExponent_eq x (e + 52) (by omega) h1 (by rw [show e + 52 + 1 = e + 53 by ring]; exact h2)
    rw [this]; ring
  unfold toF64
  rw [hu, roundHalfEven_eq _ m hm]

theorem toF64_zero : toF64 0 = 0 := by
  simp [toF64, roundHalfEven]

theorem abs_toF64_sub_le (x : ℚ) :
    |toF64 x - x| ≤ (2 : ℚ) ^ (-53 : ℤ) * |x| + (2 : ℚ) ^ (-1075 : ℤ) := by
  have hp : (0 : ℚ) < 2 ^ (-53 : ℤ) := by positivity
  have hq : (0 : ℚ) < 2 ^ (-1075 : ℤ) := by positivity
  by_cases hx : x = 0
  · subst hx
    rw [toF64_zero]
    simp only [sub_zero, abs_zero, mul_zero, zero_add]
    exact hq.le
  have hpos : 0 < |x| := abs_pos.mpr hx
  have hu : (0 : ℚ) < 2 ^ ulpExponent x := by positivity
  have h := abs_roundHalfEven_sub_le (x / 2 ^ ulpExponent x)
  have e1 : toF64 x - x
      = ((roundHalfEven (x / 2 ^ ulpExponent x) : ℚ) - x / 2 ^ ulpExponent x)
        * 2 ^ ulpExponent x := by
    unfold toF64; field_simp
  have h3 : |toF64 x - x| ≤ 1 / 2 * 2 ^ ulpExponent x := by
    rw [e1, abs_mul, abs_of_pos hu]
    exact mul_le_mul_of_nonneg_right h hu.le
  refine le_trans h3 ?_
  unfold ulpExponent
  rcases le_total (Int.log 2 |x|) (-1022) with hc | hc
  · rw [max_eq_right hc]
    have e : (1 : ℚ) / 2 * 2 ^ ((-1022 : ℤ) - 52) = 2 ^ (-1075 : ℤ) := by
      rw [show ((-1022 : ℤ) - 52) = -1075 + 1 by norm_num, zpow_add₀ (by norm_num)]
      norm_num
    rw [e]
    exact le_add_of_nonneg_left (by positivity)
  · rw [max_eq_left hc]
    have hle : (2 : ℚ) ^ Int.log 2 |x| ≤ |x| := by
      have := Int.zpow_log_le_self (b := 2) (by norm_num) hpos
      exact_mod_cast this
    have e : (1 : ℚ) / 2 * 2 ^ (Int.log 2 |x| - 52)
        = 2 ^ (-53 : ℤ) * 2 ^ Int.log 2 |x| := by
      rw [show Int.log 2 |x| - 52 = Int.log 2 |x| + (-53) + 1 by ring,
        zpow_add₀ (by norm_num), zpow_add₀ (by norm_num)]
      norm_num
      ring
    rw [e]
    exact le_trans (mul_le_mul_of_nonneg_left hle hp.le) (le_add_of_nonneg_right hq.le)

/-- Evaluation of `toF64` at a positive number: with `2^(e+52) ≤ x < 2^(e+53)` the
result is `m * 2^e` for the integer `m` strictly within `1/2` of `x / 2^e`. -/
theorem toF64_eval (x : ℚ) (e m : ℤ) (he : -1074 ≤ e) (h1 : (2 : ℚ) ^ (e + 52) ≤ x)
    (h2 : x < (2 : ℚ) ^ (e + 53)) (hm1 : (m : ℚ) - 1 / 2 < x / 2 ^ e)
    (hm2 : x / 2 ^ e < m + 1 / 2) : toF64 x = m * 2 ^ e := by
  have hx : 0 < x := lt_of_lt_of_le (by positivity) h1
  apply toF64_eq x e m he
  · rwa [abs_of_pos hx]
  · rwa [abs_of_pos hx]
  · rw [abs_lt]; constructor <;> linarith

/-- The double-precision calculation at the tie site: the total is 10875 and the
product `10875 * 0.7` is the double just below 7612.5, which rounds to 7612. -/
theorem calculateWaterStorageF64_tieSite :
    (calculateWaterStorageF64 tieSite mockRainfallData).totalHarvestable = 10875 ∧
    (calculateWaterStorageF64 tieSite mockRainfallData).waterSavingPotential = 7612 := by
  simp only [calculateWaterStorageF64, tieSite, mockRainfallData, getRunoffCoefficient_sandy]
  have h1 : toF64 (0.85) = 7656119366529843 / 9007199254740992 := by
    rw [toF64_eval _ (-53) 7656119366529843 (by norm_num) (by norm_num) (by norm_num)
      (by norm_num) (by norm_num)]
    norm_num
  rw [h1]
  have h2 : toF64 (0.35) = 3152519739159347 / 9007199254740992 := by
    rw [toF64_eval _ (-54) 6305039478318694 (by norm_num) (by norm_num) (by norm_num)
      (by norm_num) (by norm_num)]
    norm_num
  rw [h2]
  have h3 : toF64 (2 * 1250) = 2500 := by
    rw [toF64_eval _ (-41) 5497558138880000 (by norm_num) (by norm_num) (by norm_num)
      (by norm_num) (by norm_num)]
    norm_num
  rw [h3]
  have h4 : toF64 (20 * 1250) = 25000 := by
    rw [toF64_eval _ (-38) 6871947673600000 (by norm_num) (by norm_num) (by norm_num)
      (by norm_num) (by norm_num)]
    norm_num
  rw [h4]
  have h5 : toF64 (2500 * (7656119366529843 / 9007199254740992)) = 2125 := by
    rw [toF64_eval _ (-41) 4672924418048000 (by norm_num) (by norm_num) (by norm_num)
      (by norm_num) (by norm_num)]
    norm_num
  rw [h5]
  have h6 : toF64 (25000 * (3152519739159347 / 9007199254740992)) = 8750 := by
    rw [toF64_eval _ (-39) 4810363371520000 (by norm_num) (by norm_num) (by norm_num)
      (by norm_num) (by norm_num)]
    norm_num
  rw [h6]
  have h7 : toF64 (2125 + 8750) = 10875 := by
    rw [toF64_eval _ (-39) 5978594476032000 (by norm_num) (by norm_num) (by norm_num)
      (by norm_num) (by norm_num)]
    norm_num
  rw [h7]
  have h8 : mathRound (10875) = 10875 := by
    unfold mathRound; rw [Int.floor_eq_iff]; constructor <;> norm_num
  rw [h8]
  have h9 : toF64 (0.7) = 3152519739159347 / 4503599627370496 := by
    rw [toF64_eval _ (-53) 6305039478318694 (by norm_num) (by norm_num) (by norm_num)
      (by norm_num) (by norm_num)]
    norm_num
  rw [h9]
  have h10 : toF64 (10875 * (3152519739159347 / 4503599627370496)) = 8370032266444799 / 1099511627776 := by
    rw [toF64_eval _ (-40) 8370032266444799 (by norm_num) (by norm_num) (by norm_num)
      (by norm_num) (by norm_num)]
    norm_num
  rw [h10]
  have h11 : mathRound (8370032266444799 / 1099511627776) = 7612 := by
    unfold mathRound; rw [Int.floor_eq_iff]; constructor <;> norm_num
  rw [h11]
  norm_num

/-- The double-precision calculation at scenario A. -/
theorem calculateWaterStorageF64_scenarioA :
    (calculateWaterStorageF64 scenarioASite mockRainfallData).roofHarvest = 106250 ∧
    (calculateWaterStorageF64 scenarioASite mockRainfallData).openSpaceHarvest = 28125 ∧
    (calculateWaterStorageF64 scenarioASite mockRainfallData).totalHarvestable = 134375 ∧
    (calculateWaterStorageF64 scenarioASite mockRainfallData).recommendedStorage = 50000 ∧
    (calculateWaterStorageF64 scenarioASite mockRainfallData).daysCovered = 83 ∧
    (calculateWaterStorageF64 scenarioASite mockRainfallData).waterSavingPotential = 94063 := by
  simp only [calculateWaterStorageF64, scenarioASite, mockRainfallData,
    getRunoffCoefficient_loamy]
  have h1 : toF64 (0.85) = 7656119366529843 / 9007199254740992 := by
    rw [toF64_eval _ (-53) 7656119366529843 (by norm_num) (by norm_num) (by norm_num)
      (by norm_num) (by norm_num)]
    norm_num
  rw [h1]
  have h2 : toF64 (0.45) = 8106479329266893 / 18014398509481984 := by
    rw [toF64_eval _ (-54) 8106479329266893 (by norm_num) (by norm_num) (by norm_num)
      (by norm_num) (by norm_num)]
    norm_num
  rw [h2]
  have h3 : toF64 (100 * 1250) = 125000 := by
    rw [toF64_eval _ (-36) 8589934592000000 (by norm_num) (by norm_num) (by norm_num)
      (by norm_num) (by norm_num)]
    norm_num
  rw [h3]
  have h4 : toF64 (50 * 1250) = 62500 := by
    rw [toF64_eval _ (-37) 8589934592000000 (by norm_num) (by norm_num) (by norm_num)
      (by norm_num) (by norm_num)]
    norm_num
  rw [h4]
  have h5 : toF64 (125000 * (7656119366529843 / 9007199254740992)) = 106250 := by
    rw [toF64_eval _ (-36) 7301444403200000 (by norm_num) (by norm_num) (by norm_num)
      (by norm_num) (by norm_num)]
    norm_num
  rw [h5]
  have h6 : toF64 (62500 * (8106479329266893 / 18014398509481984)) = 28125 := by
    rw [toF64_eval _ (-38) 7730941132800000 (by norm_num) (by norm_num) (by norm_num)
      (by norm_num) (by norm_num)]
    norm_num
  rw [h6]
  have h7 : toF64 (106250 + 28125) = 134375 := by
    rw [toF64_eval _ (-35) 4617089843200000 (by norm_num) (by norm_num) (by norm_num)
      (by norm_num) (by norm_num)]
    norm_num
  rw [h7]
  have h8 : mathRound (106250) = 106250 := by
    unfold mathRound; rw [Int.floor_eq_iff]; constructor <;> norm_num
  rw [h8]
  have h9 : mathRound (28125) = 28125 := by
    unfold mathRound; rw [Int.floor_eq_iff]; constructor <;> norm_num
  rw [h9]
  have h10 : mathRound (134375) = 134375 := by
    unfold mathRound; rw [Int.floor_eq_iff]; constructor <;> norm_num
  rw [h10]
  have h11 : toF64 (0.6) = 5404319552844595 / 9007199254740992 := by
    rw [toF64_eval _ (-53) 5404319552844595 (by norm_num) (by norm_num) (by norm_num)
      (by norm_num) (by norm_num)]
    norm_num
  rw [h11]
  have h12 : toF64 (134375 * (5404319552844595 / 9007199254740992)) = 80625 := by
    rw [toF64_eval _ (-36) 5540507811840000 (by norm_num) (by norm_num) (by norm_num)
      (by norm_num) (by norm_num)]
    norm_num
  rw [h12]
  have h13 : min (80625 : ℚ) 50000 = 50000 := by norm_num
  rw [h13]
  have h14 : toF64 (150 * 4) = 600 := by
    rw [toF64_eval _ (-43) 5277655813324800 (by norm_num) (by norm_num) (by norm_num)
      (by norm_num) (by norm_num)]
    norm_num
  rw [h14]
  have h15 : toF64 (50000 / 600) = 5864062014805333 / 70368744177664 := by
    rw [toF64_eval _ (-46) 5864062014805333 (by norm_num) (by norm_num) (by norm_num)
      (by norm_num) (by norm_num)]
    norm_num
  rw [h15]
  have h16 : mathRound (5864062014805333 / 70368744177664) = 83 := by
    unfold mathRound; rw [Int.floor_eq_iff]; constructor <;> norm_num
  rw [h16]
  have h17 : mathRound (50000) = 50000 := by
    unfold mathRound; rw [Int.floor_eq_iff]; constructor <;> norm_num
  rw [h17]
  have h18 : toF64 (0.7) = 3152519739159347 / 4503599627370496 := by
    rw [toF64_eval _ (-53) 6305039478318694 (by norm_num) (by norm_num) (by norm_num)
      (by norm_num) (by norm_num)]
    norm_num
  rw [h18]
  have h19 : toF64 (134375 * (3152519739159347 / 4503599627370496)) = 188125 / 2 := by
    rw [toF64_eval _ (-36) 6463925780480000 (by norm_num) (by norm_num) (by norm_num)
      (by norm_num) (by norm_num)]
    norm_num
  rw [h19]
  have h20 : mathRound (188125 / 2) = 94063 := by
    unfold mathRound; rw [Int.floor_eq_iff]; constructor <;> norm_num
  rw [h20]
  norm_num

/-- Rounding to the nearest double moves a number of size at most `B` by at most
`1.2e-16 * B + 1e-20`. -/
theorem toF64_near (x B : ℚ) (hB : |x| ≤ B) :
    |toF64 x - x| ≤ 12 / 10 ^ 17 * B + 1 / 10 ^ 20 := by
  have h := abs_toF64_sub_le x
  have hu : (2 : ℚ) ^ (-53 : ℤ) ≤ 12 / 10 ^ 17 := by norm_num
  have he : (2 : ℚ) ^ (-1075 : ℤ) ≤ 1 / 10 ^ 20 := by
    have h1 : (2 : ℚ) ^ (-1075 : ℤ) ≤ (2 : ℚ) ^ (-70 : ℤ) :=
      zpow_le_zpow_right₀ (by norm_num) (by norm_num)
    have h2 : (2 : ℚ) ^ (-70 : ℤ) ≤ 1 / 10 ^ 20 := by norm_num
    exact le_trans h1 h2
  have h3 : (2 : ℚ) ^ (-53 : ℤ) * |x| ≤ 12 / 10 ^ 17 * B :=
    mul_le_mul hu hB (abs_nonneg x) (by norm_num)
  exact le_trans h (add_le_add h3 he)

theorem abs_sub_le_add (a b c : ℚ) : |a - c| ≤ |a - b| + |b - c| := by
  have := abs_add (a - b) (b - c)
  simpa using this

theorem abs_le_of_near (x x' B d : ℚ) (hx : |x| ≤ B) (hd : |x' - x| ≤ d) : |x'| ≤ B + d := by
  have := abs_add (x' - x) x
  simp only [sub_add_cancel] at this
  linarith

/-- One double-precision multiplication by a literal `c0` in `[0, 1]`: an operand
within `d` of `x` gives a product within `d + 7e-16 * B` of `x * c0`. -/
theorem abs_toF64_mul_sub_le (x x' c0 B d : ℚ) (hx : |x| ≤ B) (hB : 1 ≤ B)
    (hd : |x' - x| ≤ d) (hd1 : d ≤ 1) (hc0 : 0 ≤ c0) (hc1 : c0 ≤ 1) :
    |toF64 (x' * toF64 c0) - x * c0| ≤ d + 7 / 10 ^ 16 * B := by
  have hd0 : 0 ≤ d := le_trans (abs_nonneg _) hd
  have hc := toF64_near c0 1 (by rw [abs_of_nonneg hc0]; exact hc1)
  generalize toF64 c0 = c at hc ⊢
  have hcabs : |c| ≤ 1 + 13 / 10 ^ 17 := by
    have := abs_le_of_near c0 c 1 (13 / 10 ^ 17) (by rw [abs_of_nonneg hc0]; exact hc1)
      (by linarith)
    exact this
  have hx' : |x'| ≤ B + d := abs_le_of_near x x' B d hx hd
  have hprod : |x' * c| ≤ (B + d) * (1 + 13 / 10 ^ 17) := by
    rw [abs_mul]; exact mul_le_mul hx' hcabs (abs_nonneg _) (by linarith)
  have hr := toF64_near (x' * c) _ hprod
  have hsplit : x' * c - x * c0 = (x' - x) * c + x * (c - c0) := by ring
  have h1 : |(x' - x) * c| ≤ d * (1 + 13 / 10 ^ 17) := by
    rw [abs_mul]; exact mul_le_mul hd hcabs (abs_nonneg _) hd0
  have h2 : |x * (c - c0)| ≤ B * (13 / 10 ^ 17) := by
    rw [abs_mul]; exact mul_le_mul hx (by linarith) (abs_nonneg _) (by linarith)
  have h3 : |x' * c - x * c0| ≤ d * (1 + 13 / 10 ^ 17) + B * (13 / 10 ^ 17) := by
    rw [hsplit]; exact le_trans (abs_add _ _) (add_le_add h1 h2)
  have h4 := abs_sub_le_add (toF64 (x' * c)) (x' * c) (x * c0)
  generalize toF64 (x' * c) = z at hr h4 ⊢
  linarith

/-- One double-precision addition of operands within `dr` and `dOpen` of `r` and
`o`. -/
theorem abs_toF64_add_sub_le (r r' o o' Br Bo dr dOpen : ℚ) (hr : |r| ≤ Br) (ho : |o| ≤ Bo)
    (hdr : |r' - r| ≤ dr) (hdo : |o' - o| ≤ dOpen) :
    |toF64 (r' + o') - (r + o)| ≤
      dr + dOpen + (12 / 10 ^ 17 * (Br + Bo + dr + dOpen) + 1 / 10 ^ 20) := by
  have h1 := abs_le_of_near r r' Br dr hr hdr
  have h2 := abs_le_of_near o o' Bo dOpen ho hdo
  have h3 : |r' + o'| ≤ Br + Bo + dr + dOpen := by
    have := abs_add r' o'; linarith
  have h4 := toF64_near (r' + o') _ h3
  have h5 : |(r' + o') - (r + o)| ≤ dr + dOpen := by
    have := abs_add (r' - r) (o' - o)
    rw [show r' - r + (o' - o) = r' + o' - (r + o) by ring] at this
    linarith
  have h6 := abs_sub_le_add (toF64 (r' + o')) (r' + o') (r + o)
  linarith

/-- The value `Math.round w` of a `w` within `δ` of `v`. -/
theorem roundsWithin_mathRound (δ v w : ℚ) (h : |w - v| ≤ δ) :
    RoundsWithin δ v (mathRound w) := by
  have h1 := mathRound_le w
  have h2 := lt_mathRound w
  have h3 := abs_le.mp h
  refine ⟨by simp, ?_, ?_⟩
  · rw [abs_le]; constructor <;> linarith [h3.1, h3.2]
  · intro hfar
    refine ⟨by simp, ?_, ?_⟩
    · by_contra hlt
      push_neg at hlt
      have hn := hfar (mathRound w - 1)
      rw [abs_of_neg (by push_cast; linarith)] at hn
      push_cast at hn
      linarith [h3.1, h3.2]
    · by_contra hge
      push_neg at hge
      have hn := hfar (mathRound w)
      rw [abs_of_nonneg (by linarith)] at hn
      linarith [h3.1, h3.2]

/-- The product `150 * 4` is the double 600. -/
theorem toF64_six_hundred : toF64 (150 * 4) = 600 := by
  rw [toF64_eval _ (-43) 5277655813324800 (by norm_num) (by norm_num) (by norm_num)
    (by norm_num) (by norm_num)]
  norm_num

/-- The six double-precision quantities that `calculateWaterStorage` rounds are
within `1/1000` of the exact quantities, for areas up to `10^6` and a rainfall up
to `10^5`. -/
theorem calculateWaterStorageF64_error (a o y c : ℚ) (ha : 0 ≤ a) (ha' : a ≤ 10 ^ 6)
    (ho : 0 ≤ o) (ho' : o ≤ 10 ^ 6) (hy : 0 ≤ y) (hy' : y ≤ 10 ^ 5)
    (hc0 : 0 ≤ c) (hc1 : c ≤ 1) :
    |toF64 (toF64 (a * y) * toF64 0.85) - a * y * 0.85| ≤ 1 / 1000 ∧
    |toF64 (toF64 (o * y) * toF64 c) - o * y * c| ≤ 1 / 1000 ∧
    |toF64 (toF64 (toF64 (a * y) * toF64 0.85) + toF64 (toF64 (o * y) * toF64 c))
      - (a * y * 0.85 + o * y * c)| ≤ 1 / 1000 ∧
    |min (toF64 (toF64 (toF64 (toF64 (a * y) * toF64 0.85)
        + toF64 (toF64 (o * y) * toF64 c)) * toF64 0.6)) 50000
      - min (0.6 * (a * y * 0.85 + o * y * c)) 50000| ≤ 1 / 1000 ∧
    |toF64 (min (toF64 (toF64 (toF64 (toF64 (a * y) * toF64 0.85)
        + toF64 (toF64 (o * y) * toF64 c)) * toF64 0.6)) 50000 / toF64 (150 * 4))
      - min (0.6 * (a * y * 0.85 + o * y * c)) 50000 / 600| ≤ 1 / 1000 ∧
    |toF64 (toF64 (toF64 (toF64 (a * y) * toF64 0.85)
        + toF64 (toF64 (o * y) * toF64 c)) * toF64 0.7)
      - 0.7 * (a * y * 0.85 + o * y * c)| ≤ 1 / 1000 := by
  have hay0 : 0 ≤ a * y := mul_nonneg ha hy
  have hoy0 : 0 ≤ o * y := mul_nonneg ho hy
  have hay1 : a * y ≤ 10 ^ 11 :=
    le_trans (mul_le_mul ha' hy' hy (by norm_num)) (by norm_num)
  have hoy1 : o * y ≤ 10 ^ 11 :=
    le_trans (mul_le_mul ho' hy' hy (by norm_num)) (by norm_num)
  have hx1 : |a * y| ≤ 10 ^ 11 := by rw [abs_of_nonneg hay0]; exact hay1
  have hx2 : |o * y| ≤ 10 ^ 11 := by rw [abs_of_nonneg hoy0]; exact hoy1
  have hP1 : |toF64 (a * y) - a * y| ≤ 13 / 10 ^ 6 :=
    le_trans (toF64_near _ _ hx1) (by norm_num)
  have hP2 : |toF64 (o * y) - o * y| ≤ 13 / 10 ^ 6 :=
    le_trans (toF64_near _ _ hx2) (by norm_num)
  have hR : |toF64 (toF64 (a * y) * toF64 0.85) - a * y * 0.85| ≤ 1 / 10 ^ 4 :=
    le_trans (abs_toF64_mul_sub_le _ _ 0.85 _ _ hx1 (by norm_num) hP1 (by norm_num)
      (by norm_num) (by norm_num)) (by norm_num)
  have hO : |toF64 (toF64 (o * y) * toF64 c) - o * y * c| ≤ 1 / 10 ^ 4 :=
    le_trans (abs_toF64_mul_sub_le _ _ c _ _ hx2 (by norm_num) hP2 (by norm_num)
      hc0 hc1) (by norm_num)
  have hr0 : 0 ≤ a * y * 0.85 := mul_nonneg hay0 (by norm_num)
  have ho0 : 0 ≤ o * y * c := mul_nonneg hoy0 hc0
  have hr1 : a * y * 0.85 ≤ 10 ^ 11 := by linarith
  have ho1 : o * y * c ≤ 10 ^ 11 := by
    have := mul_le_mul hoy1 hc1 hc0 (by norm_num : (0 : ℚ) ≤ 10 ^ 11)
    linarith
  have hRb : |a * y * 0.85| ≤ 10 ^ 11 := by rw [abs_of_nonneg hr0]; exact hr1
  have hOb : |o * y * c| ≤ 10 ^ 11 := by rw [abs_of_nonneg ho0]; exact ho1
  have hT : |toF64 (toF64 (toF64 (a * y) * toF64 0.85) + toF64 (toF64 (o * y) * toF64 c))
      - (a * y * 0.85 + o * y * c)| ≤ 23 / 10 ^ 5 :=
    le_trans (abs_toF64_add_sub_le _ _ _ _ _ _ _ _ hRb hOb hR hO) (by norm_num)
  have hT0 : 0 ≤ a * y * 0.85 + o * y * c := add_nonneg hr0 ho0
  have hTb : |a * y * 0.85 + o * y * c| ≤ 2 * 10 ^ 11 := by
    rw [abs_of_nonneg hT0]; linarith
  have hX : |toF64 (toF64 (toF64 (toF64 (a * y) * toF64 0.85)
        + toF64 (toF64 (o * y) * toF64 c)) * toF64 0.6)
      - 0.6 * (a * y * 0.85 + o * y * c)| ≤ 1 / 1000 := by
    rw [mul_comm (0.6 : ℚ) (a * y * 0.85 + o * y * c)]
    exact le_trans (abs_toF64_mul_sub_le _ _ 0.6 _ _ hTb (by norm_num) hT (by norm_num)
      (by norm_num) (by norm_num)) (by norm_num)
  have hW : |toF64 (toF64 (toF64 (toF64 (a * y) * toF64 0.85)
        + toF64 (toF64 (o * y) * toF64 c)) * toF64 0.7)
      - 0.7 * (a * y * 0.85 + o * y * c)| ≤ 1 / 1000 := by
    rw [mul_comm (0.7 : ℚ) (a * y * 0.85 + o * y * c)]
    exact le_trans (abs_toF64_mul_sub_le _ _ 0.7 _ _ hTb (by norm_num) hT (by norm_num)
      (by norm_num) (by norm_num)) (by norm_num)
  generalize toF64 (toF64 (toF64 (toF64 (a * y) * toF64 0.85)
        + toF64 (toF64 (o * y) * toF64 c)) * toF64 0.6) = X at hX ⊢
  generalize a * y * 0.85 + o * y * c = T at hT hT0 hTb hX hW ⊢
  have hM : |min X 50000 - min (0.6 * T) 50000| ≤ 1 / 1000 := by
    have h := abs_min_sub_min_le_max X 50000 (0.6 * T) 50000
    rw [sub_self, abs_zero, max_eq_left (abs_nonneg _)] at h
    exact le_trans h hX
  have hrec0 : 0 ≤ min (0.6 * T) 50000 :=
    le_min (mul_nonneg (by norm_num) hT0) (by norm_num)
  have hrec1 : min (0.6 * T) 50000 ≤ 50000 := min_le_right _ _
  have hD : |toF64 (min X 50000 / toF64 (150 * 4)) - min (0.6 * T) 50000 / 600| ≤ 1 / 1000 := by
    rw [toF64_six_hundred]
    generalize min X 50000 = r' at hM ⊢
    generalize min (0.6 * T) 50000 = r at hM hrec0 hrec1 ⊢
    have hrb : |r| ≤ 50000 := by rw [abs_of_nonneg hrec0]; exact hrec1
    have hr'b : |r'| ≤ 50000 + 1 / 1000 := abs_le_of_near r r' _ _ hrb hM
    have hq : |r' / 600| ≤ 84 := by
      rw [abs_div, abs_of_pos (by norm_num : (0 : ℚ) < 600), div_le_iff₀ (by norm_num)]
      linarith
    have h1 := toF64_near (r' / 600) 84 hq
    have h2 : |r' / 600 - r / 600| ≤ 1 / 1000 / 600 := by
      rw [← sub_div, abs_div, abs_of_pos (by norm_num : (0 : ℚ) < 600)]
      exact div_le_div_of_nonneg_right hM (by norm_num)
    have h3 := abs_sub_le_add (toF64 (r' / 600)) (r' / 600) (r / 600)
    have h4 : (12 : ℚ) / 10 ^ 17 * 84 + 1 / 10 ^ 20 + 1 / 1000 / 600 ≤ 1 / 1000 := by norm_num
    linarith
  exact ⟨le_trans hR (by norm_num), le_trans hO (by norm_num), le_trans hT (by norm_num),
    hM, hD, hW⟩

/-! ## Water storage in double precision -/

/-- C1 fails as stated: for a 2 m² roof and 20 m² of open space on sandy soil
under 1250 mm of rain the exact value of `0.7 * T` is 7612.5, whose nearest
integer with halves rounded up is 7613, but the double-precision product
`T * 0.7` is just below 7612.5 and `calculateWaterStorage` returns
`waterSavingPotential = 7612`. -/
theorem waterSavingPotential_not_nearest_tieSite :
    0 ≤ tieSite.roofArea ∧ 0 ≤ tieSite.openSpace ∧ 0 ≤ mockRainfallData.currentYear ∧
    0.7 * (tieSite.roofArea * mockRainfallData.currentYear * 0.85
      + tieSite.openSpace * mockRainfallData.currentYear
        * getRunoffCoefficient tieSite.soilType) = 7612.5 ∧
    (calculateWaterStorageF64 tieSite mockRainfallData).waterSavingPotential = 7612 ∧
    ¬ IsNearestHalfUp
      (0.7 * (tieSite.roofArea * mockRainfallData.currentYear * 0.85
        + tieSite.openSpace * mockRainfallData.currentYear
          * getRunoffCoefficient tieSite.soilType))
      (calculateWaterStorageF64 tieSite mockRainfallData).waterSavingPotential := by
  have hv : 0.7 * (tieSite.roofArea * mockRainfallData.currentYear * 0.85
      + tieSite.openSpace * mockRainfallData.currentYear
        * getRunoffCoefficient tieSite.soilType) = 7612.5 := by
    simp only [tieSite, mockRainfallData, getRunoffCoefficient_sandy]
    norm_num
  refine ⟨by norm_num [tieSite], by norm_num [tieSite], by norm_num [mockRainfallData], hv,
    calculateWaterStorageF64_tieSite.2, ?_⟩
  rw [hv, calculateWaterStorageF64_tieSite.2]
  unfold IsNearestHalfUp
  norm_num

/-- C1 (amended): for a site with areas between 0 and 10^6, a soil type that is
not an inherited property name and a rainfall between 0 and 10^5, every field
returned by the double-precision `calculateWaterStorage` is an integer within
`1/2 + 1/1000` of the exact quantity (the roof harvest, the open-space harvest,
their sum `T`, `min (0.6 T) 50000`, that minimum over 600, and `0.7 T`), and is
the nearest integer to it (a half rounded up) whenever the exact quantity is
more than `1/1000` away from every half-integer; the two runoff coefficients
are the doubles nearest to 0.85 and to `getRunoffCoefficient soilType`, within
`10^-15` of them. -/
theorem calculateWaterStorageF64_spec (data : SiteData) (rainfallData : RainfallData)
    (hr : 0 ≤ data.roofArea) (hr' : data.roofArea ≤ 10 ^ 6)
    (ho : 0 ≤ data.openSpace) (ho' : data.openSpace ≤ 10 ^ 6)
    (hy : 0 ≤ rainfallData.currentYear) (hy' : rainfallData.currentYear ≤ 10 ^ 5)
    (_hs : data.soilType ∉ objectPrototypeKeys) :
    let c := getRunoffCoefficient data.soilType
    let T := data.roofArea * rainfallData.currentYear * 0.85
      + data.openSpace * rainfallData.currentYear * c
    let s := calculateWaterStorageF64 data rainfallData
    RoundsWithin (1 / 1000) (data.roofArea * rainfallData.currentYear * 0.85) s.roofHarvest ∧
    RoundsWithin (1 / 1000) (data.openSpace * rainfallData.currentYear * c)
      s.openSpaceHarvest ∧
    RoundsWithin (1 / 1000) T s.totalHarvestable ∧
    RoundsWithin (1 / 1000) (min (0.6 * T) 50000) s.recommendedStorage ∧
    RoundsWithin (1 / 1000) (min (0.6 * T) 50000 / 600) s.daysCovered ∧
    RoundsWithin (1 / 1000) (0.7 * T) s.waterSavingPotential ∧
    s.roofRunoffCoeff = toF64 0.85 ∧ s.openSpaceRunoffCoeff = toF64 c ∧
    |s.roofRunoffCoeff - 0.85| ≤ 1 / 10 ^ 15 ∧ |s.openSpaceRunoffCoeff - c| ≤ 1 / 10 ^ 15 := by
  intro c T s
  have hcb := getRunoffCoefficient_bounds data.soilType
  have hc0 : 0 ≤ getRunoffCoefficient data.soilType := le_trans (by norm_num) hcb.1
  have hc1 : getRunoffCoefficient data.soilType ≤ 1 := le_trans hcb.2 (by norm_num)
  obtain ⟨hR, hO, hT, hM, hD, hW⟩ := calculateWaterStorageF64_error data.roofArea
    data.openSpace rainfallData.currentYear (getRunoffCoefficient data.soilType)
    hr hr' ho ho' hy hy' hc0 hc1
  have k1 : |toF64 0.85 - 0.85| ≤ 1 / 10 ^ 15 :=
    le_trans (toF64_near 0.85 1 (by norm_num [abs_le])) (by norm_num)
  have k2 : |toF64 (getRunoffCoefficient data.soilType) - getRunoffCoefficient data.soilType|
      ≤ 1 / 10 ^ 15 :=
    le_trans (toF64_near _ 1 (by rw [abs_of_nonneg hc0]; exact hc1)) (by norm_num)
  exact ⟨roundsWithin_mathRound _ _ _ hR, roundsWithin_mathRound _ _ _ hO,
    roundsWithin_mathRound _ _ _ hT, roundsWithin_mathRound _ _ _ hM,
    roundsWithin_mathRound _ _ _ hD, roundsWithin_mathRound _ _ _ hW, rfl, rfl, k1, k2⟩

/-- C1 (amended) at scenario A: the hypotheses hold, and the six fields computed
in double precision are 106250, 28125, 134375, 50000, 83 and 94063. -/
theorem calculateWaterStorageF64_spec_scenarioA :
    (0 ≤ scenarioASite.roofArea ∧ scenarioASite.roofArea ≤ 10 ^ 6
      ∧ 0 ≤ scenarioASite.openSpace ∧ scenarioASite.openSpace ≤ 10 ^ 6
      ∧ 0 ≤ mockRainfallData.currentYear ∧ mockRainfallData.currentYear ≤ 10 ^ 5
      ∧ scenarioASite.soilType ∉ objectPrototypeKeys) ∧
    (RoundsWithin (1 / 1000) (100 * 1250 * 0.85) 106250 ∧
      RoundsWithin (1 / 1000) (50 * 1250 * 0.45) 28125 ∧
      RoundsWithin (1 / 1000) (100 * 1250 * 0.85 + 50 * 1250 * 0.45) 134375 ∧
      RoundsWithin (1 / 1000) (min (0.6 * (100 * 1250 * 0.85 + 50 * 1250 * 0.45)) 50000) 50000 ∧
      RoundsWithin (1 / 1000)
        (min (0.6 * (100 * 1250 * 0.85 + 50 * 1250 * 0.45)) 50000 / 600) 83 ∧
      RoundsWithin (1 / 1000) (0.7 * (100 * 1250 * 0.85 + 50 * 1250 * 0.45)) 94063) ∧
    (calculateWaterStorageF64 scenarioASite mockRainfallData).roofHarvest = 106250 ∧
    (calculateWaterStorageF64 scenarioASite mockRainfallData).openSpaceHarvest = 28125 ∧
    (calculateWaterStorageF64 scenarioASite mockRainfallData).totalHarvestable = 134375 ∧
    (calculateWaterStorageF64 scenarioASite mockRainfallData).recommendedStorage = 50000 ∧
    (calculateWaterStorageF64 scenarioASite mockRainfallData).daysCovered = 83 ∧
    (calculateWaterStorageF64 scenarioASite mockRainfallData).waterSavingPotential = 94063 := by
  have h0 : 0 ≤ scenarioASite.roofArea ∧ scenarioASite.roofArea ≤ 10 ^ 6
      ∧ 0 ≤ scenarioASite.openSpace ∧ scenarioASite.openSpace ≤ 10 ^ 6
      ∧ 0 ≤ mockRainfallData.currentYear ∧ mockRainfallData.currentYear ≤ 10 ^ 5
      ∧ scenarioASite.soilType ∉ objectPrototypeKeys := by
    refine ⟨?_, ?_, ?_, ?_, ?_, ?_, by decide⟩ <;> norm_num [scenarioASite, mockRainfallData]
  have h := calculateWaterStorageF64_spec scenarioASite mockRainfallData h0.1 h0.2.1 h0.2.2.1
    h0.2.2.2.1 h0.2.2.2.2.1 h0.2.2.2.2.2.1 h0.2.2.2.2.2.2
  have hv := calculateWaterStorageF64_scenarioA
  obtain ⟨v1, v2, v3, v4, v5, v6⟩ := hv
  refine ⟨h0, ?_, v1, v2, v3, v4, v5, v6⟩
  simp only [v1, v2, v3, v4, v5, v6] at h
  simp only [scenarioASite, mockRainfallData, getRunoffCoefficient_loamy] at h
  exact ⟨h.1, h.2.1, h.2.2.1, h.2.2.2.1, h.2.2.2.2.1, h.2.2.2.2.2.1⟩

end RWH
